import Mathlib

/-!
Shallow embedding of the krono date/time library (`src/index.ts`).

Timestamps are modelled as `Int` milliseconds since the Unix epoch, exactly
as the library stores them.  The JavaScript runtime's `Date` UTC accessors
and `Date.UTC` implement the proleptic Gregorian calendar as specified by
ECMA-262 (`DayFromYear`, `YearFromTime`, `MonthFromTime`, `DateFromTime`,
`MakeDay`, `MakeTime`, `MakeDate`); those platform primitives are embedded
below as pure functions on `Int`.  On `Int`, the Lean operators `/` and `%`
are euclidean division and remainder, which for the positive constant
divisors used throughout agree with the floor division and modulo that
ECMA-262 prescribes.

The host environment's local time zone (used by the `new Date(y, m, d)`
constructor and by `new Date(string)` on date-time strings without a zone
suffix) is modelled as a fixed-offset zone with offset `hostOff`
milliseconds (local time = UTC + `hostOff`); this covers hosts running in
UTC and in the fixed-offset IANA zones `Etc/GMT±k`.  The per-zone offset
returned by `zone.getOffset(·, zoneName)` for a fixed zone name is
abstracted as a function `off : Int → Int`; for the zone `"UTC"` it is the
constant zero function (proved from the cache model itself).
-/

/-- Milliseconds per second (source constant `MS_PER_SECOND`). -/
def MS_PER_SECOND : Int := 1000

/-- Milliseconds per minute (source constant `MS_PER_MINUTE`). -/
def MS_PER_MINUTE : Int := 60000

/-- Milliseconds per hour (source constant `MS_PER_HOUR`). -/
def MS_PER_HOUR : Int := 3600000

/-- Milliseconds per day (source constant `MS_PER_DAY`). -/
def MS_PER_DAY : Int := 86400000

/-- Milliseconds per week (source constant `MS_PER_WEEK`). -/
def MS_PER_WEEK : Int := 604800000

/-- Gregorian leap-year predicate, as written twice in the source
(`validateDateComponents` and `Krono.isLeapYear`):
`(year % 4 === 0 && year % 100 !== 0) || year % 400 === 0`. -/
def isLeapYear (y : Int) : Bool := (y % 4 == 0 && y % 100 != 0) || y % 400 == 0

/-- Number of leap days (0 or 1) contributed by year `y`. -/
def leapDays (y : Int) : Int := if isLeapYear y then 1 else 0

/-- Day number (days since 1970-01-01) of January 1 of year `y`
(ECMA-262 `DayFromYear`, with floor divisions). -/
def dayFromYear (y : Int) : Int :=
  365 * (y - 1970) + (y - 1969) / 4 - (y - 1901) / 100 + (y - 1601) / 400

/-- First-guess year for the year containing epoch day `d`; the correct
year is one of `yearGuess d`, `yearGuess d - 1`, `yearGuess d - 2`
(see `yearFromDay_char`). -/
def yearGuess (d : Int) : Int := 1970 + (400 * d + 506) / 146097

/-- ECMA-262 `YearFromTime`: the unique year `y` with
`dayFromYear y ≤ d < dayFromYear (y+1)`, computed by guess and correction. -/
def yearFromDay (d : Int) : Int :=
  if d < dayFromYear (yearGuess d) then
    (if d < dayFromYear (yearGuess d - 1) then yearGuess d - 2 else yearGuess d - 1)
  else yearGuess d

/-- Cumulative number of days before 0-based month `m` in a year with leap
flag `L` (the ECMA-262 month boundaries used by `MonthFromTime`). -/
def cumDays (L m : Int) : Int :=
  if m ≤ 0 then 0
  else if m = 1 then 31
  else if m = 2 then 59 + L
  else if m = 3 then 90 + L
  else if m = 4 then 120 + L
  else if m = 5 then 151 + L
  else if m = 6 then 181 + L
  else if m = 7 then 212 + L
  else if m = 8 then 243 + L
  else if m = 9 then 273 + L
  else if m = 10 then 304 + L
  else if m = 11 then 334 + L
  else 365 + L

/-- ECMA-262 `MonthFromTime` as a function of the leap flag `L` and the
day-within-year `w`. -/
def monthFromDayWithinYear (L w : Int) : Int :=
  if w < 31 then 0
  else if w < 59 + L then 1
  else if w < 90 + L then 2
  else if w < 120 + L then 3
  else if w < 151 + L then 4
  else if w < 181 + L then 5
  else if w < 212 + L then 6
  else if w < 243 + L then 7
  else if w < 273 + L then 8
  else if w < 304 + L then 9
  else if w < 334 + L then 10
  else 11

/-- Day of year (0-based) of epoch day `d` (ECMA-262 `DayWithinYear`). -/
def dayWithinYear (d : Int) : Int := d - dayFromYear (yearFromDay d)

/-- Zero-based civil month of epoch day `d` (ECMA-262 `MonthFromTime`). -/
def monthOfDay (d : Int) : Int :=
  monthFromDayWithinYear (leapDays (yearFromDay d)) (dayWithinYear d)

/-- One-based day of month of epoch day `d` (ECMA-262 `DateFromTime`). -/
def dateOfDay (d : Int) : Int :=
  dayWithinYear d - cumDays (leapDays (yearFromDay d)) (monthOfDay d) + 1

/-- Weekday of epoch day `d`, 0 = Sunday (ECMA-262 `WeekDay`). -/
def weekdayOfDay (d : Int) : Int := (d + 4) % 7

/-- ECMA-262 `MakeDay`: epoch day number of (year `y`, 0-based month `m`,
day `dt`), normalising month overflow into the year and rolling the day. -/
def makeDay (y m dt : Int) : Int :=
  dayFromYear (y + m / 12) + cumDays (leapDays (y + m / 12)) (m % 12) + (dt - 1)

/-- Days in 0-based month `m` of a year with leap flag `L`. -/
def daysInMonthOf (L m : Int) : Int := cumDays L (m + 1) - cumDays L m

/-- JavaScript remainder `a % b` (truncated division, sign of the
dividend), for a positive divisor `b`. -/
def jsRem (a b : Int) : Int := if a < 0 then -((-a) % b) else a % b

/-- Epoch day number of timestamp `t` (ECMA-262 `Day`). -/
def dayNumber (t : Int) : Int := t / 86400000

/-- Milliseconds since local midnight of timestamp `t` (ECMA-262 `TimeWithinDay`). -/
def timeWithinDay (t : Int) : Int := t % 86400000

/-- JavaScript `Date.prototype.getUTCFullYear`. -/
def getUTCFullYear (t : Int) : Int := yearFromDay (dayNumber t)

/-- JavaScript `Date.prototype.getUTCMonth` (0-based). -/
def getUTCMonth (t : Int) : Int := monthOfDay (dayNumber t)

/-- JavaScript `Date.prototype.getUTCDate` (1-based day of month). -/
def getUTCDate (t : Int) : Int := dateOfDay (dayNumber t)

/-- JavaScript `Date.prototype.getUTCDay` (0 = Sunday). -/
def getUTCDay (t : Int) : Int := weekdayOfDay (dayNumber t)

/-- JavaScript `Date.prototype.getUTCHours`. -/
def getUTCHours (t : Int) : Int := (t / 3600000) % 24

/-- JavaScript `Date.prototype.getUTCMinutes`. -/
def getUTCMinutes (t : Int) : Int := (t / 60000) % 60

/-- JavaScript `Date.prototype.getUTCSeconds`. -/
def getUTCSeconds (t : Int) : Int := (t / 1000) % 60

/-- JavaScript `Date.prototype.getUTCMilliseconds`. -/
def getUTCMilliseconds (t : Int) : Int := t % 1000

/-- JavaScript `setUTCFullYear(y, m, dt)` (three-argument form): new
timestamp with the given date and the original time of day. -/
def setUTCFullYearMD (t y m dt : Int) : Int := makeDay y m dt * 86400000 + timeWithinDay t

/-- JavaScript `setUTCFullYear(y)` (one-argument form): keeps the current
civil month and day. -/
def setUTCFullYearY (t y : Int) : Int := setUTCFullYearMD t y (getUTCMonth t) (getUTCDate t)

/-- JavaScript `setUTCMonth(m, dt)` (two-argument form). -/
def setUTCMonthD (t m dt : Int) : Int := setUTCFullYearMD t (getUTCFullYear t) m dt

/-- JavaScript `setUTCDate(dt)`. -/
def setUTCDate (t dt : Int) : Int := setUTCFullYearMD t (getUTCFullYear t) (getUTCMonth t) dt

/-- JavaScript `setUTCHours(h, mi, s, ms)` (four-argument form). -/
def setUTCHours4 (t h mi s ms : Int) : Int :=
  dayNumber t * 86400000 + (h * 3600000 + mi * 60000 + s * 1000 + ms)

/-- JavaScript `setUTCHours(h)` (one-argument form): keeps minutes,
seconds, milliseconds. -/
def setUTCHours1 (t h : Int) : Int :=
  dayNumber t * 86400000 + h * 3600000 + getUTCMinutes t * 60000 + getUTCSeconds t * 1000 +
    getUTCMilliseconds t

/-- JavaScript `setUTCMinutes(mi, s, ms)` (three-argument form). -/
def setUTCMinutes3 (t mi s ms : Int) : Int :=
  dayNumber t * 86400000 + getUTCHours t * 3600000 + (mi * 60000 + s * 1000 + ms)

/-- JavaScript `setUTCMinutes(mi)` (one-argument form). -/
def setUTCMinutes1 (t mi : Int) : Int :=
  dayNumber t * 86400000 + getUTCHours t * 3600000 + mi * 60000 + getUTCSeconds t * 1000 +
    getUTCMilliseconds t

/-- JavaScript `setUTCSeconds(s, ms)` (two-argument form). -/
def setUTCSeconds2 (t s ms : Int) : Int :=
  dayNumber t * 86400000 + getUTCHours t * 3600000 + getUTCMinutes t * 60000 + (s * 1000 + ms)

/-- JavaScript `setUTCSeconds(s)` (one-argument form). -/
def setUTCSeconds1 (t s : Int) : Int :=
  dayNumber t * 86400000 + getUTCHours t * 3600000 + getUTCMinutes t * 60000 + s * 1000 +
    getUTCMilliseconds t

/-- JavaScript `setUTCMilliseconds(ms)` (one-argument form). -/
def setUTCMilliseconds1 (t ms : Int) : Int :=
  dayNumber t * 86400000 + getUTCHours t * 3600000 + getUTCMinutes t * 60000 +
    getUTCSeconds t * 1000 + ms

/-- Two-digit years 0–99 passed to the legacy `new Date(y, m, d)`
constructor are interpreted as 1900–1999 (ECMA-262, step for the Date
constructor with two or more arguments). -/
def legacyYear (y : Int) : Int := if 0 ≤ y ∧ y ≤ 99 then 1900 + y else y

/-- Timestamp of `new Date(y, m, dt)` (local-time constructor, midnight),
on a host whose local zone has the fixed offset `hostOff` milliseconds
(local = UTC + `hostOff`). -/
def newDateLocalMidnight (hostOff y m dt : Int) : Int :=
  makeDay (legacyYear y) m dt * 86400000 - hostOff

/-- Time units supported by the library (source `TimeUnit`). -/
inductive TimeUnit where
  | millisecond
  | second
  | minute
  | hour
  | day
  | week
  | month
  | year
deriving DecidableEq

/-- DST ambiguity resolution preference (source `DSTPreference`). -/
inductive DSTPreference where
  | earlier
  | later
deriving DecidableEq

/-- Civil-calendar field values returned by the civil-time oracle (the
`Intl.DateTimeFormat(...).formatToParts` call in `zone.getOffset`). -/
structure CivilParts where
  year : Int
  month : Int
  day : Int
  hour : Int
  minute : Int
  second : Int
deriving DecidableEq

/-- Bounded LRU map from zone names to per-zone offset tables, modelling
the source's `LRUCache<string, Map<number, number>>` (`_offsetCache`).
Entries are kept in `Map` iteration order: least recently used first. -/
structure LRUMap where
  entries : List (String × List (Int × Int))
  maxSize : Nat
deriving DecidableEq

/-- Model of `LRUCache.get`: on a hit the entry moves to the
most-recently-used end, exactly as the source deletes and re-inserts. -/
def lruGet (c : LRUMap) (k : String) : Option (List (Int × Int)) × LRUMap :=
  match (c.entries.find? (fun p => p.1 == k)).map (fun p => p.2) with
  | none => (none, c)
  | some v => (some v, ⟨(c.entries.filter (fun p => !(p.1 == k))) ++ [(k, v)], c.maxSize⟩)

/-- Model of `LRUCache.set`: refreshes an existing key, otherwise evicts
the least-recently-used entry once `maxSize` is reached. -/
def lruSet (c : LRUMap) (k : String) (v : List (Int × Int)) : LRUMap :=
  if (c.entries.find? (fun p => p.1 == k)).isSome then
    ⟨(c.entries.filter (fun p => !(p.1 == k))) ++ [(k, v)], c.maxSize⟩
  else if c.maxSize ≤ c.entries.length then
    ⟨c.entries.tail ++ [(k, v)], c.maxSize⟩
  else ⟨c.entries ++ [(k, v)], c.maxSize⟩

/-- In-place mutation of an inner offset `Map` that is already stored in
the cache (the aliased `zoneCache.set(timestamp, offset)` call). -/
def lruUpdate (c : LRUMap) (k : String) (v : List (Int × Int)) : LRUMap :=
  ⟨c.entries.map (fun p => if p.1 == k then (k, v) else p), c.maxSize⟩

/-- Timestamp reconstructed from the oracle's civil fields interpreted as
UTC — the `Date.UTC(...)` call in `zone.getOffset` (note the `month - 1`
and the reuse of the original timestamp's UTC milliseconds). -/
def localEquivalentInUtc (p : CivilParts) (t : Int) : Int :=
  makeDay p.year (p.month - 1) p.day * 86400000 + p.hour * 3600000 + p.minute * 60000 +
    p.second * 1000 + getUTCMilliseconds t

/-- Model of `zone.getOffset`: returns 0 for the UTC sentinel before any
cache access; otherwise consults the LRU cache and on a miss queries the
civil-time oracle (`none` models an `Intl` exception, which the source
recovers as offset 0 with a console warning). -/
def getOffset (oracleParts : Int → String → Option CivilParts) (cache : LRUMap)
    (t : Int) (zoneName : String) : Int × LRUMap :=
  if zoneName = "UTC" then (0, cache)
  else
    match lruGet cache zoneName with
    | (some zc, cache1) =>
        match zc.lookup t with
        | some off => (off, cache1)
        | none =>
            match oracleParts t zoneName with
            | some p =>
                (t - localEquivalentInUtc p t,
                  lruUpdate cache1 zoneName (zc ++ [(t, t - localEquivalentInUtc p t)]))
            | none => (0, cache1)
    | (none, cache1) =>
        match oracleParts t zoneName with
        | some p =>
            (t - localEquivalentInUtc p t,
              lruSet cache1 zoneName [(t, t - localEquivalentInUtc p t)])
        | none => (0, cache1)

/-- Model of `zone.convertToZone`. -/
def convertToZone (oracleParts : Int → String → Option CivilParts) (cache : LRUMap)
    (t : Int) (fromZone toZone : String) : Int × LRUMap :=
  if fromZone = toZone then (t, cache)
  else
    match getOffset oracleParts cache t fromZone with
    | (fromOff, cache1) =>
        match getOffset oracleParts cache1 t toZone with
        | (toOff, cache2) => (t + (fromOff - toOff), cache2)

/-- Model of `zone.handleDSTAmbiguity` for a fixed zone whose memoised
offset function is `off` (i.e. `zone.getOffset(·, zoneName)` with a warm
deterministic cache). -/
def handleDSTAmbiguity (zoneName : String) (off : Int → Int) (t : Int)
    (preference : DSTPreference) : Int :=
  if zoneName = "UTC" then t
  else if off (t - 3600000) ≠ off (t + 3600000) then
    (if preference = DSTPreference.later then t else t - 3600000)
  else t

/-- Last day of 0-based month `finalMonth` of `targetYear` as the source
computes it: `new Date(targetYear, finalMonth + 1, 0).getUTCDate()` — a
local-time construction read back through a UTC accessor, on a host with
the fixed offset `hostOff`. -/
def lastDayOfTargetMonth (hostOff targetYear finalMonth : Int) : Int :=
  getUTCDate (newDateLocalMidnight hostOff targetYear (finalMonth + 1) 0)

/-- The `case "month"` branch of `zone.addTimeWithDST`, acting on the
zoned timestamp `z`: `targetMonth = month + amount`,
`targetYear = year + Math.floor(targetMonth / 12)`,
`finalMonth = ((targetMonth % 12) + 12) % 12` (JavaScript `%` is the
truncated remainder `jsRem`), set the date to 1 in the target month, and
set the day to `min(originalDay, lastDayOfTargetMonth)`. -/
def addMonthsCivil (hostOff z amount : Int) : Int :=
  let targetMonth := getUTCMonth z + amount
  let targetYear := getUTCFullYear z + targetMonth / 12
  let finalMonth := jsRem (jsRem targetMonth 12 + 12) 12
  let originalDay := getUTCDate z
  let afterYearSet := setUTCFullYearMD z targetYear finalMonth 1
  let finalDay := min originalDay (lastDayOfTargetMonth hostOff targetYear finalMonth)
  setUTCDate afterYearSet finalDay

/-- The `switch (unit)` of `zone.addTimeWithDST`, applied to the zoned
timestamp `z` (`zonedDate`). -/
def civilFieldAdd (hostOff z amount : Int) (u : TimeUnit) : Int :=
  match u with
  | TimeUnit.year => setUTCFullYearY z (getUTCFullYear z + amount)
  | TimeUnit.month => addMonthsCivil hostOff z amount
  | TimeUnit.week => setUTCDate z (getUTCDate z + amount * 7)
  | TimeUnit.day => setUTCDate z (getUTCDate z + amount)
  | TimeUnit.hour => setUTCHours1 z (getUTCHours z + amount)
  | TimeUnit.minute => setUTCMinutes1 z (getUTCMinutes z + amount)
  | TimeUnit.second => setUTCSeconds1 z (getUTCSeconds z + amount)
  | TimeUnit.millisecond => setUTCMilliseconds1 z (getUTCMilliseconds z + amount)

/-- Model of `zone.addTimeWithDST` for a fixed zone name with offset
function `off`.  Units with fixed multipliers other than day and week take
the fast path; the remaining units run the civil-field mutation on the
zoned time, convert back with the offset at the new civil timestamp, and
resolve DST ambiguity with the default `"later"` preference. -/
def addTimeWithDST (zoneName : String) (off : Int → Int) (hostOff t amount : Int)
    (u : TimeUnit) : Int :=
  match u with
  | TimeUnit.millisecond => t + amount * 1
  | TimeUnit.second => t + amount * 1000
  | TimeUnit.minute => t + amount * 60000
  | TimeUnit.hour => t + amount * 3600000
  | _ =>
      let zonedTime := t - off t
      let moved := civilFieldAdd hostOff zonedTime amount u
      handleDSTAmbiguity zoneName off (moved + off moved) DSTPreference.later

/-- The UTC branch of `Krono.startOf` (the `if (this._zone === "UTC")`
block). -/
def startOfUTC (t : Int) (u : TimeUnit) : Int :=
  match u with
  | TimeUnit.year => setUTCHours4 (setUTCMonthD t 0 1) 0 0 0 0
  | TimeUnit.month => setUTCHours4 (setUTCDate t 1) 0 0 0 0
  | TimeUnit.week =>
      setUTCHours4
        (setUTCDate t (getUTCDate t - (if getUTCDay t = 0 then 6 else getUTCDay t - 1)))
        0 0 0 0
  | TimeUnit.day => setUTCHours4 t 0 0 0 0
  | TimeUnit.hour => setUTCMinutes3 t 0 0 0
  | TimeUnit.minute => setUTCSeconds2 t 0 0
  | TimeUnit.second => setUTCMilliseconds1 t 0
  | TimeUnit.millisecond => t

/-- Timestamp rebuilt from its own civil fields via `Date.UTC` — the
`modifiedDate` constructed in the non-UTC branch of `Krono.startOf`. -/
def rebuildFromFields (z : Int) : Int :=
  makeDay (getUTCFullYear z) (getUTCMonth z) (getUTCDate z) * 86400000 +
    getUTCHours z * 3600000 + getUTCMinutes z * 60000 + getUTCSeconds z * 1000 +
    getUTCMilliseconds z

/-- The non-UTC branch of `Krono.startOf`: it computes the zoned civil
time (`this._time - offset`), rebuilds it via `Date.UTC`, applies the same
switch as the UTC branch, renders the result as the zone-less string
`YYYY-MM-DDTHH:MM:SS.mmm`, and re-parses it through `Krono.create`.  The
pipeline's fallback `new Date(dateString)` interprets such a string in the
HOST's local zone (ECMA-262: a date-time form without a zone suffix is
local time), so on a fixed-offset host the re-parse yields the field
timestamp minus `hostOff`.  This equation is exact for civil years
1000–9999, where the rendered string is a well-formed ISO date-time. -/
def startOfZoned (off : Int → Int) (hostOff t : Int) (u : TimeUnit) : Int :=
  startOfUTC (rebuildFromFields (t - off t)) u - hostOff

/-- Dispatch of `Krono.startOf` on the instance zone. -/
def Krono.startOf (zoneName : String) (off : Int → Int) (hostOff t : Int) (u : TimeUnit) : Int :=
  if zoneName = "UTC" then startOfUTC t u else startOfZoned off hostOff t u

/-- Timestamp of `Krono.endOf`:
`this.add(1, unit).startOf(unit).subtract(1, "millisecond")`, where
`subtract(1, "millisecond")` is `add(-1, "millisecond")`. -/
def Krono.endOf (zoneName : String) (off : Int → Int) (hostOff t : Int) (u : TimeUnit) : Int :=
  addTimeWithDST zoneName off hostOff
    (Krono.startOf zoneName off hostOff (addTimeWithDST zoneName off hostOff t 1 u) u)
    (-1) TimeUnit.millisecond

/-- Immutable state of a `Krono` instance. -/
structure KronoState where
  time : Int
  locale : String
  zoneName : String
  debug : Bool
deriving DecidableEq

/-- The three error classes of the library (`KronoError`,
`KronoParseError`, `KronoTimezoneError`), with their message payloads. -/
inductive KronoErr where
  | kronoError (message : String)
  | kronoParseError (input reason : String)
  | kronoTimezoneError (zoneName : String)
deriving DecidableEq

/-- Model of `validateTimestamp`: on `Int` inputs the `Number.isFinite`
check always passes, so only the `Math.abs(timestamp) > 8.64e15` range
check remains. -/
def validateTimestamp (t : Int) : Except KronoErr Unit :=
  if 8640000000000000 < |t| then
    Except.error (KronoErr.kronoError ("Timestamp out of range: " ++ toString t))
  else Except.ok ()

/-- Model of `zone.isValid` with its append-only `_validZoneCache` and the
platform validity oracle (`new Intl.DateTimeFormat("en", { timeZone })`
succeeding).  Returns the verdict and the updated cache. -/
def zoneIsValid (validCache : List String) (oracleValid : String → Bool) (z : String) :
    Bool × List String :=
  if z ∈ validCache then (true, validCache)
  else if oracleValid z then (true, z :: validCache) else (false, validCache)

/-- Model of the private `Krono` constructor: validate the timestamp, then
the zone (the `zoneName !== "UTC" && !zone.isValid(zoneName)` guard, so
the UTC sentinel skips validation), and store the immutable tuple.
Returns the new state with the updated validity cache. -/
def mkKrono (oracleValid : String → Bool) (validCache : List String) (time : Int)
    (locale zoneName : String) (debug : Bool) : Except KronoErr (KronoState × List String) :=
  match validateTimestamp time with
  | Except.error e => Except.error e
  | Except.ok _ =>
      if zoneName = "UTC" then Except.ok (⟨time, locale, zoneName, debug⟩, validCache)
      else
        match zoneIsValid validCache oracleValid zoneName with
        | (true, c) => Except.ok (⟨time, locale, zoneName, debug⟩, c)
        | (false, _) => Except.error (KronoErr.kronoTimezoneError zoneName)

/-- Model of `Krono.prototype.tz`: a new instance with the same timestamp
and locale and the requested zone, validated by the constructor. -/
def Krono.tz (oracleValid : String → Bool) (validCache : List String) (k : KronoState)
    (zoneName : String) : Except KronoErr (KronoState × List String) :=
  mkKrono oracleValid validCache k.time k.locale zoneName k.debug

/-- Model of `Krono.prototype.utc`. -/
def Krono.utc (oracleValid : String → Bool) (validCache : List String) (k : KronoState) :
    Except KronoErr (KronoState × List String) :=
  mkKrono oracleValid validCache k.time k.locale "UTC" k.debug

/-- Model of `Krono.prototype.local` (`zone.getSystemZone()` abstracted as
the parameter `systemZone`). -/
def Krono.local (oracleValid : String → Bool) (validCache : List String)
    (systemZone : String) (k : KronoState) : Except KronoErr (KronoState × List String) :=
  mkKrono oracleValid validCache k.time k.locale systemZone k.debug

/-- Model of `Krono.prototype.add`: the arithmetic engine followed by the
constructor. -/
def Krono.add (oracleValid : String → Bool) (validCache : List String) (off : Int → Int)
    (hostOff : Int) (k : KronoState) (amount : Int) (u : TimeUnit) :
    Except KronoErr (KronoState × List String) :=
  mkKrono oracleValid validCache (addTimeWithDST k.zoneName off hostOff k.time amount u)
    k.locale k.zoneName k.debug

/-- Model of `Krono.prototype.subtract`: `add(-amount, unit)`. -/
def Krono.subtract (oracleValid : String → Bool) (validCache : List String) (off : Int → Int)
    (hostOff : Int) (k : KronoState) (amount : Int) (u : TimeUnit) :
    Except KronoErr (KronoState × List String) :=
  Krono.add oracleValid validCache off hostOff k (-amount) u

/-- Model of `Krono.prototype.startOf` at the instance level: the
timestamp computation followed by construction of the new instance. -/
def Krono.startOfInstance (oracleValid : String → Bool) (validCache : List String)
    (off : Int → Int) (hostOff : Int) (k : KronoState) (u : TimeUnit) :
    Except KronoErr (KronoState × List String) :=
  mkKrono oracleValid validCache (Krono.startOf k.zoneName off hostOff k.time u)
    k.locale k.zoneName k.debug

/-- Model of the static `Krono.min`: JavaScript `reduce` without an
initial value folds from the first element; `current.isBefore(min)`
compares raw timestamps. -/
def Krono.min (dates : List KronoState) : Except KronoErr KronoState :=
  match dates with
  | [] => Except.error (KronoErr.kronoError "No dates provided")
  | d :: rest =>
      Except.ok (rest.foldl (fun acc cur => if cur.time < acc.time then cur else acc) d)

/-- Model of the static `Krono.max` (`current.isAfter(max)`). -/
def Krono.max (dates : List KronoState) : Except KronoErr KronoState :=
  match dates with
  | [] => Except.error (KronoErr.kronoError "No dates provided")
  | d :: rest =>
      Except.ok (rest.foldl (fun acc cur => if acc.time < cur.time then cur else acc) d)

/-- ASCII lower-casing of one character, as `String.prototype.toLowerCase`
acts on the ASCII inputs relevant here. -/
def toLowerChar (c : Char) : Char :=
  if 'A' ≤ c ∧ c ≤ 'Z' then Char.ofNat (c.toNat + 32) else c

/-- Model of `String.prototype.toLowerCase` on a character list. -/
def lowerChars (s : List Char) : List Char := s.map toLowerChar

/-- Whitespace class of the regex `\s` and of `String.prototype.trim`,
modelled for the common ASCII whitespace characters. -/
def isSpaceChar (c : Char) : Bool := c == ' ' || c == '\t' || c == '\n' || c == '\r'

/-- Model of `String.prototype.trim`. -/
def trimChars (s : List Char) : List Char :=
  ((s.dropWhile isSpaceChar).reverse.dropWhile isSpaceChar).reverse

/-- Value of a string of decimal digits (`Number.parseInt(..., 10)` on an
all-digit match). -/
def digitsToInt (ds : List Char) : Int :=
  ds.foldl (fun a c => a * 10 + ((c.toNat : Int) - 48)) 0

/-- Match an exact literal at the head of the input, returning the rest. -/
def dropLit : List Char → List Char → Option (List Char)
  | [], s => some s
  | _ :: _, [] => none
  | c :: cs, x :: xs => if x = c then dropLit cs xs else none

/-- Match the regex `\s+` at the head of the input. -/
def dropSpaces1 : List Char → Option (List Char)
  | [] => none
  | x :: xs => if isSpaceChar x then some (xs.dropWhile isSpaceChar) else none

/-- Greedy `\d+`-style split into leading digits and the rest. -/
def takeDigits (s : List Char) : List Char × List Char :=
  (s.takeWhile Char.isDigit, s.dropWhile Char.isDigit)

/-- Match exactly `n` decimal digits (`\d{n}`), returning their value and
the rest of the input. -/
def matchDigits (n : Nat) (s : List Char) : Option (Int × List Char) :=
  if (s.take n).length == n && (s.take n).all Char.isDigit then
    some (digitsToInt (s.take n), s.drop n)
  else none

/-- Result of the natural-language pattern stage
(`NATURAL_PATTERNS` handlers in `Krono._parseNaturalLanguage`). -/
inductive NaturalCmd where
  | nextWeekday (target : Int)
  | lastWeekday (target : Int)
  | startOfUnit (u : TimeUnit)
  | endOfUnit (u : TimeUnit)
deriving DecidableEq

/-- The `WEEKDAY_MAP` of the source, paired with the alternation order of
the weekday group in `NATURAL_PATTERNS`. -/
def weekdayWords : List (String × Int) :=
  [("monday", 1), ("tuesday", 2), ("wednesday", 3), ("thursday", 4), ("friday", 5),
    ("saturday", 6), ("sunday", 0)]

/-- Match a full weekday word ending the input (the anchored
`(monday|...|sunday)$` group). -/
def matchWeekday (s : List Char) : Option Int :=
  weekdayWords.findSome? (fun p =>
    match dropLit p.1.data s with
    | some [] => some p.2
    | _ => none)

/-- Match `(month|year|week)$`. -/
def matchUnitWordEnd (s : List Char) : Option TimeUnit :=
  match dropLit "month".data s with
  | some [] => some TimeUnit.month
  | _ =>
      match dropLit "year".data s with
      | some [] => some TimeUnit.year
      | _ =>
          match dropLit "week".data s with
          | some [] => some TimeUnit.week
          | _ => none

/-- Match `\s+of\s+(month|year|week)$`. -/
def matchOfUnit (r : List Char) : Option TimeUnit :=
  match dropSpaces1 r with
  | none => none
  | some r2 =>
      match dropLit "of".data r2 with
      | none => none
      | some r3 =>
          match dropSpaces1 r3 with
          | none => none
          | some r4 => matchUnitWordEnd r4

/-- Match `^next\s+(weekday)$`. -/
def matchNextWeekday (ls : List Char) : Option NaturalCmd :=
  match dropLit "next".data ls with
  | none => none
  | some r =>
      match dropSpaces1 r with
      | none => none
      | some r2 => (matchWeekday r2).map NaturalCmd.nextWeekday

/-- Match `^last\s+(weekday)$`. -/
def matchLastWeekday (ls : List Char) : Option NaturalCmd :=
  match dropLit "last".data ls with
  | none => none
  | some r =>
      match dropSpaces1 r with
      | none => none
      | some r2 => (matchWeekday r2).map NaturalCmd.lastWeekday

/-- Match `^(beginning|start)\s+of\s+(month|year|week)$`. -/
def matchStartOfPattern (ls : List Char) : Option NaturalCmd :=
  match dropLit "beginning".data ls with
  | some r => (matchOfUnit r).map NaturalCmd.startOfUnit
  | none =>
      match dropLit "start".data ls with
      | some r => (matchOfUnit r).map NaturalCmd.startOfUnit
      | none => none

/-- Match `^(end)\s+of\s+(month|year|week)$`. -/
def matchEndOfPattern (ls : List Char) : Option NaturalCmd :=
  match dropLit "end".data ls with
  | some r => (matchOfUnit r).map NaturalCmd.endOfUnit
  | none => none

/-- The pattern-matching part of `Krono._parseNaturalLanguage`, tried in
the order of `NATURAL_PATTERNS`; the `/i` flags are modelled by matching
the lower-cased input. -/
def parseNaturalLanguage (s : List Char) : Option NaturalCmd :=
  match matchNextWeekday (lowerChars s) with
  | some c => some c
  | none =>
      match matchLastWeekday (lowerChars s) with
      | some c => some c
      | none =>
          match matchStartOfPattern (lowerChars s) with
          | some c => some c
          | none => matchEndOfPattern (lowerChars s)

/-- Model of the `Krono.dayOfWeek` getter for a given zone offset
function. -/
def Krono.dayOfWeek (zoneName : String) (off : Int → Int) (t : Int) : Int :=
  if zoneName = "UTC" then getUTCDay t else getUTCDay (t - off t)

/-- Evaluation of a matched natural-language pattern against the current
time `now` in the default zone (the handler bodies in
`Krono._parseNaturalLanguage`). -/
def evalNaturalCmd (zoneName : String) (off : Int → Int) (hostOff now : Int) :
    NaturalCmd → Int
  | NaturalCmd.nextWeekday target =>
      Krono.startOf zoneName off hostOff
        (addTimeWithDST zoneName off hostOff now
          (if target > Krono.dayOfWeek zoneName off now then
            target - Krono.dayOfWeek zoneName off now
          else 7 - Krono.dayOfWeek zoneName off now + target)
          TimeUnit.day)
        TimeUnit.day
  | NaturalCmd.lastWeekday target =>
      Krono.startOf zoneName off hostOff
        (addTimeWithDST zoneName off hostOff now
          (-(if Krono.dayOfWeek zoneName off now > target then
              Krono.dayOfWeek zoneName off now - target
            else Krono.dayOfWeek zoneName off now + 7 - target))
          TimeUnit.day)
        TimeUnit.day
  | NaturalCmd.startOfUnit u => Krono.startOf zoneName off hostOff now u
  | NaturalCmd.endOfUnit u => Krono.endOf zoneName off hostOff now u

/-- Unit keywords of `RELATIVE_REGEX` in alternation order. -/
def unitWordsRel : List (String × TimeUnit) :=
  [("year", TimeUnit.year), ("month", TimeUnit.month), ("week", TimeUnit.week),
    ("day", TimeUnit.day), ("hour", TimeUnit.hour), ("minute", TimeUnit.minute),
    ("second", TimeUnit.second)]

/-- Match the unit-word group of `RELATIVE_REGEX` at the head of the
input (the optional trailing `s?\s*(?:ago|from\s+now|in)?` always
matches, possibly empty, so nothing after the keyword can fail). -/
def matchUnitWord (s : List Char) : Option TimeUnit :=
  unitWordsRel.findSome? (fun p => (dropLit p.1.data s).map (fun _ => p.2))

/-- Attempt of `RELATIVE_REGEX` at one start position:
`(?:in\s+)?(\d+)\s+(year|month|week|day|hour|minute|second)`; the
remaining groups of the regex are optional. -/
def relMatchHere (s : List Char) : Option (Int × TimeUnit) :=
  let s1 :=
    match dropLit "in".data s with
    | some r =>
        match dropSpaces1 r with
        | some r2 => r2
        | none => s
    | none => s
  match takeDigits s1 with
  | ([], _) => none
  | (ds, r) =>
      match dropSpaces1 r with
      | none => none
      | some r2 => (matchUnitWord r2).map (fun u => (digitsToInt ds, u))

/-- Unanchored search of `RELATIVE_REGEX` (leftmost match, as
`String.prototype.match`). -/
def relSearch : List Char → Option (Int × TimeUnit)
  | [] => none
  | c :: cs =>
      match relMatchHere (c :: cs) with
      | some r => some r
      | none => relSearch cs

/-- Model of `String.prototype.includes` (case-sensitive substring
search). -/
def containsSub : List Char → List Char → Bool
  | [], sub => sub.isEmpty
  | c :: rest, sub => (dropLit sub (c :: rest)).isSome || containsSub rest sub

/-- Match the `([+-]\d{2}):?(\d{2})` digits after the sign in
`ISO_WITH_ZONE_REGEX` (trailing input beyond the group is allowed, since
the regex ends after this alternative). -/
def isoOffsetDigitsOk (r : List Char) : Bool :=
  match matchDigits 2 r with
  | none => false
  | some (_, r2) =>
      match r2 with
      | ':' :: r3 => (matchDigits 2 r3).isSome
      | _ => (matchDigits 2 r2).isSome

/-- Match the final group `(?:Z|([+-]\d{2}):?(\d{2})|$)` of
`ISO_WITH_ZONE_REGEX` at the given position. -/
def isoTailOk (s : List Char) : Bool :=
  match s with
  | [] => true
  | 'Z' :: _ => true
  | '+' :: r => isoOffsetDigitsOk r
  | '-' :: r => isoOffsetDigitsOk r
  | _ => false

/-- Positions after the optional time group
`(?:T(\d{2}):(\d{2}):(\d{2})(?:\.(\d{3}))?)?` of `ISO_WITH_ZONE_REGEX`,
in backtracking order (with milliseconds first, then without); the caller
appends the empty-group position. -/
def isoTimeRemainders (r5 : List Char) : List (List Char) :=
  match r5 with
  | 'T' :: r6 =>
      match matchDigits 2 r6 with
      | none => []
      | some (_, r7) =>
          match r7 with
          | ':' :: r8 =>
              match matchDigits 2 r8 with
              | none => []
              | some (_, r9) =>
                  match r9 with
                  | ':' :: r10 =>
                      match matchDigits 2 r10 with
                      | none => []
                      | some (_, r11) =>
                          match r11 with
                          | '.' :: r12 =>
                              match matchDigits 3 r12 with
                              | none => [r11]
                              | some (_, r13) => [r13, r11]
                          | _ => [r11]
                  | _ => []
          | _ => []
  | _ => []

/-- Model of `str.match(ISO_WITH_ZONE_REGEX)` restricted to the three
captured date components: `^(\d{4})-(\d{2})-(\d{2})` followed by the
optional time group and the `(?:Z|([+-]\d{2}):?(\d{2})|$)` tail, with the
regex engine's backtracking over the optional time group. -/
def isoMatchYMD (s : List Char) : Option (Int × Int × Int) :=
  match matchDigits 4 s with
  | none => none
  | some (y, r1) =>
      match r1 with
      | '-' :: r2 =>
          match matchDigits 2 r2 with
          | none => none
          | some (mo, r3) =>
              match r3 with
              | '-' :: r4 =>
                  match matchDigits 2 r4 with
                  | none => none
                  | some (d, r5) =>
                      if (isoTimeRemainders r5 ++ [r5]).any isoTailOk then some (y, mo, d)
                      else none
              | _ => none
      | _ => none

/-- The source's `DAYS_IN_MONTH` lookup table (0-based index, non-leap). -/
def DAYS_IN_MONTH (i : Int) : Int :=
  if i = 0 then 31
  else if i = 1 then 28
  else if i = 2 then 31
  else if i = 3 then 30
  else if i = 4 then 31
  else if i = 5 then 30
  else if i = 6 then 31
  else if i = 7 then 31
  else if i = 8 then 30
  else if i = 9 then 31
  else if i = 10 then 30
  else 31

/-- Model of `validateDateComponents`: range check on month and day, then
the month-length check with the leap-year adjustment for February. -/
def validateDateComponents (y mo d : Int) : Except KronoErr Unit :=
  if mo < 1 ∨ 12 < mo ∨ d < 1 ∨ 31 < d then
    Except.error (KronoErr.kronoParseError
      (toString y ++ "-" ++ toString mo ++ "-" ++ toString d) "Invalid date components")
  else if (if mo = 2 ∧ isLeapYear y = true then 29 else DAYS_IN_MONTH (mo - 1)) < d then
    Except.error (KronoErr.kronoParseError
      (toString y ++ "-" ++ toString mo ++ "-" ++ toString d)
      ("Invalid day " ++ toString d ++ " for month " ++ toString mo ++ " in year " ++
        toString y))
  else Except.ok ()

/-- Prefix test of the stage-6 regex `^\d{4}-\d{2}-\d{2}[ T]\d{2}:\d{2}:\d{2}`
(time part). -/
def utcShapeTimeTest (r : List Char) : Bool :=
  match matchDigits 2 r with
  | none => false
  | some (_, r2) =>
      match r2 with
      | ':' :: r3 =>
          match matchDigits 2 r3 with
          | none => false
          | some (_, r4) =>
              match r4 with
              | ':' :: r5 => (matchDigits 2 r5).isSome
              | _ => false
      | _ => false

/-- Prefix test of the stage-6 regex `^\d{4}-\d{2}-\d{2}[ T]\d{2}:\d{2}:\d{2}`. -/
def utcShapeTest (s : List Char) : Bool :=
  match matchDigits 4 s with
  | none => false
  | some (_, r1) =>
      match r1 with
      | '-' :: r2 =>
          match matchDigits 2 r2 with
          | none => false
          | some (_, r3) =>
              match r3 with
              | '-' :: r4 =>
                  match matchDigits 2 r4 with
                  | none => false
                  | some (_, r5) =>
                      match r5 with
                      | ' ' :: r6 => utcShapeTimeTest r6
                      | 'T' :: r6 => utcShapeTimeTest r6
                      | _ => false
              | _ => false
      | _ => false

/-- Model of `str.replace(" ", "T")` (first occurrence only). -/
def replaceFirstSpace : List Char → List Char
  | [] => []
  | ' ' :: r => 'T' :: r
  | c :: r => c :: replaceFirstSpace r

/-- Zone suffix of an ECMA-262 Date Time String Format string. -/
inductive IsoZoneSuffix where
  | absent
  | utcZ
  | offsetMin (minutes : Int)
deriving DecidableEq

/-- Fields of a parsed ECMA-262 Date Time String Format string: the
timestamp of the fields read as UTC, whether a time part was present, and
the zone suffix. -/
structure IsoParsed where
  fieldsTs : Int
  hasTime : Bool
  suffix : IsoZoneSuffix
deriving DecidableEq

/-- Timestamp of civil fields (1-based month) read as UTC. -/
def isoFieldsToTs (y mo d h mi sec ms : Int) : Int :=
  makeDay y (mo - 1) d * 86400000 + h * 3600000 + mi * 60000 + sec * 1000 + ms

/-- Parse the `±HH:MM` digits of an ISO zone offset (exact end of input
required, as `Date.parse` rejects trailing garbage). -/
def parseOffsetHM (r : List Char) : Option Int :=
  match matchDigits 2 r with
  | some (h, ':' :: r2) =>
      match matchDigits 2 r2 with
      | some (m, []) => if h ≤ 23 ∧ m ≤ 59 then some (h * 60 + m) else none
      | _ => none
  | _ => none

/-- Parse the zone suffix of an ISO date-time string (must end the
input). -/
def parseIsoSuffix (r : List Char) : Option IsoZoneSuffix :=
  match r with
  | [] => some IsoZoneSuffix.absent
  | ['Z'] => some IsoZoneSuffix.utcZ
  | '+' :: rr => (parseOffsetHM rr).map (fun m => IsoZoneSuffix.offsetMin m)
  | '-' :: rr => (parseOffsetHM rr).map (fun m => IsoZoneSuffix.offsetMin (-m))
  | _ => none

/-- Parse `HH:MM[:SS[.mmm]]` plus zone suffix, with component range
checks. -/
def parseIsoTimePart (r6 : List Char) : Option (Int × Int × Int × Int × IsoZoneSuffix) :=
  match matchDigits 2 r6 with
  | some (h, ':' :: r7) =>
      match matchDigits 2 r7 with
      | some (mi, rest) =>
          if h ≤ 23 ∧ mi ≤ 59 then
            match rest with
            | ':' :: r8 =>
                match matchDigits 2 r8 with
                | some (sec, rest2) =>
                    if sec ≤ 59 then
                      match rest2 with
                      | '.' :: r9 =>
                          match matchDigits 3 r9 with
                          | some (ms, rest3) =>
                              (parseIsoSuffix rest3).map (fun z => (h, mi, sec, ms, z))
                          | none => none
                      | _ => (parseIsoSuffix rest2).map (fun z => (h, mi, sec, 0, z))
                    else none
                | none => none
            | _ => (parseIsoSuffix rest).map (fun z => (h, mi, 0, 0, z))
          else none
      | none => none
  | _ => none

/-- Parse an exact ECMA-262 Date Time String Format string
(`YYYY-MM-DD[THH:MM[:SS[.mmm]]][Z|±HH:MM]`), with calendar validation of
the components (engines reject out-of-range days such as `2025-02-30`). -/
def parseIsoDateTime (s : List Char) : Option IsoParsed :=
  match matchDigits 4 s with
  | none => none
  | some (y, r1) =>
      match r1 with
      | '-' :: r2 =>
          match matchDigits 2 r2 with
          | none => none
          | some (mo, r3) =>
              match r3 with
              | '-' :: r4 =>
                  match matchDigits 2 r4 with
                  | none => none
                  | some (d, r5) =>
                      if mo < 1 ∨ 12 < mo ∨ d < 1 ∨ daysInMonthOf (leapDays y) (mo - 1) < d
                      then none
                      else
                        match r5 with
                        | [] => some ⟨isoFieldsToTs y mo d 0 0 0 0, false, IsoZoneSuffix.absent⟩
                        | 'T' :: r6 =>
                            match parseIsoTimePart r6 with
                            | some (h, mi, sec, ms, z) =>
                                some ⟨isoFieldsToTs y mo d h mi sec ms, true, z⟩
                            | none => none
                        | _ => none
              | _ => none
      | _ => none

/-- Model of `new Date(string)` / `Date.parse` on a host with fixed
offset `hostOff`: the Date Time String Format with date-only forms read
as UTC and date-time forms without a suffix read as host-local time
(ECMA-262); implementation-defined fallback heuristics for other inputs
are modelled as rejection. -/
def jsDateParse (hostOff : Int) (s : List Char) : Option Int :=
  match parseIsoDateTime s with
  | none => none
  | some p =>
      match p.suffix with
      | IsoZoneSuffix.utcZ => some p.fieldsTs
      | IsoZoneSuffix.offsetMin m => some (p.fieldsTs - m * 60000)
      | IsoZoneSuffix.absent =>
          if p.hasTime then some (p.fieldsTs - hostOff) else some p.fieldsTs

/-- Stages 6 and 7 of `Krono._parseToTime`: the UTC-default
disambiguation (`new Date(str.replace(" ", "T") + "Z")` when the default
zone is UTC and the string is date-time shaped), then the lenient
`new Date(str)` fallback, then the parse error. -/
def parseToTimeTail (zoneName : String) (hostOff : Int) (str : List Char) :
    Except KronoErr Int :=
  if zoneName = "UTC" ∧ utcShapeTest str = true then
    match jsDateParse hostOff (replaceFirstSpace str ++ ['Z']) with
    | some t => Except.ok t
    | none =>
        match jsDateParse hostOff str with
        | some t => Except.ok t
        | none => Except.error (KronoErr.kronoParseError (String.mk str) "Unrecognized format")
  else
    match jsDateParse hostOff str with
    | some t => Except.ok t
    | none => Except.error (KronoErr.kronoParseError (String.mk str) "Unrecognized format")

/-- Model of the string path of `Krono._parseToTime`: trim, the `"now"`
sentinel, natural language, relative expressions (where the `"ago"` check
is `str.includes("ago")` on the original trimmed string), the strict ISO
validation stage, and the tail stages.  `now` is the current time
`Date.now()`, `off` the offset function of the default zone `zoneName`,
`hostOff` the host zone's fixed offset. -/
def parseToTime (zoneName : String) (off : Int → Int) (hostOff now : Int) (input : String) :
    Except KronoErr Int :=
  let str := trimChars input.data
  if lowerChars str = "now".data then Except.ok now
  else
    match parseNaturalLanguage str with
    | some cmd => Except.ok (evalNaturalCmd zoneName off hostOff now cmd)
    | none =>
        match relSearch (lowerChars str) with
        | some nu =>
            Except.ok (addTimeWithDST zoneName off hostOff now
              (if containsSub str "ago".data then -nu.1 else nu.1) nu.2)
        | none =>
            match isoMatchYMD str with
            | some ymd =>
                match validateDateComponents ymd.1 ymd.2.1 ymd.2.2 with
                | Except.error e => Except.error e
                | Except.ok _ => parseToTimeTail zoneName hostOff str
            | none => parseToTimeTail zoneName hostOff str

/-- Model of `Krono.create` on a string input: the parsing pipeline
followed by the constructor with the same zone option. -/
def Krono.create (oracleValid : String → Bool) (validCache : List String)
    (off : Int → Int) (hostOff now : Int) (input : String) (locale zoneName : String)
    (debug : Bool) : Except KronoErr (KronoState × List String) :=
  match parseToTime zoneName off hostOff now input with
  | Except.error e => Except.error e
  | Except.ok t => mkKrono oracleValid validCache t locale zoneName debug

/-- Decidable test for a parse-class error. -/
def isParseError : Except KronoErr Int → Bool
  | Except.error (KronoErr.kronoParseError _ _) => true
  | _ => false

deriving instance DecidableEq for Except

theorem iNeg {c : Prop} [Decidable c] {α : Sort u} {t e : α} (hnc : ¬ c) :
    (if c then t else e) = e := if_neg hnc

theorem iPos {c : Prop} [Decidable c] {α : Sort u} {t e : α} (hc : c) :
    (if c then t else e) = t := if_pos hc

theorem dayFromYear_step (y : Int) : dayFromYear (y + 1) = dayFromYear y + 365 + leapDays y := by
  unfold dayFromYear leapDays isLeapYear
  split <;> rename_i h <;> simp_all <;> omega

theorem leapDays_bounds (y : Int) : 0 ≤ leapDays y ∧ leapDays y ≤ 1 := by
  unfold leapDays; split <;> omega

theorem yearFromDay_char (d : Int) :
    dayFromYear (yearFromDay d) ≤ d ∧ d < dayFromYear (yearFromDay d + 1) := by
  unfold yearFromDay yearGuess dayFromYear
  split <;> try split
  all_goals first
  | omega
  | (simp only [Int.sub_add_cancel]; omega)

theorem dayFromYear_mono {a b : Int} (h : a ≤ b) : dayFromYear a ≤ dayFromYear b := by
  obtain ⟨n, rfl⟩ : ∃ n : ℕ, b = a + n := ⟨(b - a).toNat, by omega⟩
  clear h
  induction n with
  | zero => simp
  | succ k ih =>
      have hcast : a + ((k : Int) + 1) = (a + (k : Int)) + 1 := by ring
      have hs := dayFromYear_step (a + (k : Int))
      have hb := leapDays_bounds (a + (k : Int))
      push_cast
      rw [hcast]
      omega

theorem yearFromDay_eq {y d : Int} (h1 : dayFromYear y ≤ d) (h2 : d < dayFromYear (y + 1)) :
    yearFromDay d = y := by
  have hc := yearFromDay_char d
  rcases lt_trichotomy (yearFromDay d) y with h | h | h
  · have hle : yearFromDay d + 1 ≤ y := by omega
    have := dayFromYear_mono hle
    omega
  · exact h
  · have hle : y + 1 ≤ yearFromDay d := by omega
    have := dayFromYear_mono hle
    omega

theorem dayWithinYear_bounds (d : Int) :
    0 ≤ dayWithinYear d ∧ dayWithinYear d < 365 + leapDays (yearFromDay d) := by
  have hc := yearFromDay_char d
  have hs := dayFromYear_step (yearFromDay d)
  unfold dayWithinYear
  omega

theorem cumDays_v0 (L : Int) : cumDays L 0 = 0 := by norm_num [cumDays]
theorem cumDays_v1 (L : Int) : cumDays L 1 = 31 := by norm_num [cumDays]
theorem cumDays_v2 (L : Int) : cumDays L 2 = 59 + L := by norm_num [cumDays]
theorem cumDays_v3 (L : Int) : cumDays L 3 = 90 + L := by norm_num [cumDays]
theorem cumDays_v4 (L : Int) : cumDays L 4 = 120 + L := by norm_num [cumDays]
theorem cumDays_v5 (L : Int) : cumDays L 5 = 151 + L := by norm_num [cumDays]
theorem cumDays_v6 (L : Int) : cumDays L 6 = 181 + L := by norm_num [cumDays]
theorem cumDays_v7 (L : Int) : cumDays L 7 = 212 + L := by norm_num [cumDays]
theorem cumDays_v8 (L : Int) : cumDays L 8 = 243 + L := by norm_num [cumDays]
theorem cumDays_v9 (L : Int) : cumDays L 9 = 273 + L := by norm_num [cumDays]
theorem cumDays_v10 (L : Int) : cumDays L 10 = 304 + L := by norm_num [cumDays]
theorem cumDays_v11 (L : Int) : cumDays L 11 = 334 + L := by norm_num [cumDays]
theorem cumDays_v12 (L : Int) : cumDays L 12 = 365 + L := by norm_num [cumDays]

theorem dimOf_v0 (L : Int) : daysInMonthOf L 0 = 31 := by
  unfold daysInMonthOf
  norm_num [cumDays]
theorem dimOf_v1 (L : Int) : daysInMonthOf L 1 = 28 + L := by
  unfold daysInMonthOf
  norm_num [cumDays]
  omega
theorem dimOf_v2 (L : Int) : daysInMonthOf L 2 = 31 := by
  unfold daysInMonthOf
  norm_num [cumDays]
theorem dimOf_v3 (L : Int) : daysInMonthOf L 3 = 30 := by
  unfold daysInMonthOf
  norm_num [cumDays]
theorem dimOf_v4 (L : Int) : daysInMonthOf L 4 = 31 := by
  unfold daysInMonthOf
  norm_num [cumDays]
theorem dimOf_v5 (L : Int) : daysInMonthOf L 5 = 30 := by
  unfold daysInMonthOf
  norm_num [cumDays]
theorem dimOf_v6 (L : Int) : daysInMonthOf L 6 = 31 := by
  unfold daysInMonthOf
  norm_num [cumDays]
theorem dimOf_v7 (L : Int) : daysInMonthOf L 7 = 31 := by
  unfold daysInMonthOf
  norm_num [cumDays]
theorem dimOf_v8 (L : Int) : daysInMonthOf L 8 = 30 := by
  unfold daysInMonthOf
  norm_num [cumDays]
theorem dimOf_v9 (L : Int) : daysInMonthOf L 9 = 31 := by
  unfold daysInMonthOf
  norm_num [cumDays]
theorem dimOf_v10 (L : Int) : daysInMonthOf L 10 = 30 := by
  unfold daysInMonthOf
  norm_num [cumDays]
theorem dimOf_v11 (L : Int) : daysInMonthOf L 11 = 31 := by
  unfold daysInMonthOf
  norm_num [cumDays]

theorem mFDWY_eq0 (L w : Int) (h2 : w < 31) : monthFromDayWithinYear L w = 0 := by
  unfold monthFromDayWithinYear
  rw [iPos (by omega)]

theorem mFDWY_eq1 (L w : Int) (h1 : 31 ≤ w) (h2 : w < 59 + L) :
    monthFromDayWithinYear L w = 1 := by
  unfold monthFromDayWithinYear
  rw [iNeg (by omega), iPos (by omega)]

theorem mFDWY_eq2 (L w : Int) (hL0 : 0 ≤ L) (h1 : 59 + L ≤ w) (h2 : w < 90 + L) :
    monthFromDayWithinYear L w = 2 := by
  unfold monthFromDayWithinYear
  rw [iNeg (by omega), iNeg (by omega), iPos (by omega)]

theorem mFDWY_eq3 (L w : Int) (hL0 : 0 ≤ L) (h1 : 90 + L ≤ w) (h2 : w < 120 + L) :
    monthFromDayWithinYear L w = 3 := by
  unfold monthFromDayWithinYear
  rw [iNeg (by omega), iNeg (by omega), iNeg (by omega), iPos (by omega)]

theorem mFDWY_eq4 (L w : Int) (hL0 : 0 ≤ L) (h1 : 120 + L ≤ w) (h2 : w < 151 + L) :
    monthFromDayWithinYear L w = 4 := by
  unfold monthFromDayWithinYear
  rw [iNeg (by omega), iNeg (by omega), iNeg (by omega), iNeg (by omega), iPos (by omega)]

theorem mFDWY_eq5 (L w : Int) (hL0 : 0 ≤ L) (h1 : 151 + L ≤ w) (h2 : w < 181 + L) :
    monthFromDayWithinYear L w = 5 := by
  unfold monthFromDayWithinYear
  rw [iNeg (by omega), iNeg (by omega), iNeg (by omega), iNeg (by omega), iNeg (by omega), iPos (by omega)]

theorem mFDWY_eq6 (L w : Int) (hL0 : 0 ≤ L) (h1 : 181 + L ≤ w) (h2 : w < 212 + L) :
    monthFromDayWithinYear L w = 6 := by
  unfold monthFromDayWithinYear
  rw [iNeg (by omega), iNeg (by omega), iNeg (by omega), iNeg (by omega), iNeg (by omega), iNeg (by omega), iPos (by omega)]

theorem mFDWY_eq7 (L w : Int) (hL0 : 0 ≤ L) (h1 : 212 + L ≤ w) (h2 : w < 243 + L) :
    monthFromDayWithinYear L w = 7 := by
  unfold monthFromDayWithinYear
  rw [iNeg (by omega), iNeg (by omega), iNeg (by omega), iNeg (by omega), iNeg (by omega), iNeg (by omega), iNeg (by omega), iPos (by omega)]

theorem mFDWY_eq8 (L w : Int) (hL0 : 0 ≤ L) (h1 : 243 + L ≤ w) (h2 : w < 273 + L) :
    monthFromDayWithinYear L w = 8 := by
  unfold monthFromDayWithinYear
  rw [iNeg (by omega), iNeg (by omega), iNeg (by omega), iNeg (by omega), iNeg (by omega), iNeg (by omega), iNeg (by omega), iNeg (by omega), iPos (by omega)]

theorem mFDWY_eq9 (L w : Int) (hL0 : 0 ≤ L) (h1 : 273 + L ≤ w) (h2 : w < 304 + L) :
    monthFromDayWithinYear L w = 9 := by
  unfold monthFromDayWithinYear
  rw [iNeg (by omega), iNeg (by omega), iNeg (by omega), iNeg (by omega), iNeg (by omega), iNeg (by omega), iNeg (by omega), iNeg (by omega), iNeg (by omega), iPos (by omega)]

theorem mFDWY_eq10 (L w : Int) (hL0 : 0 ≤ L) (h1 : 304 + L ≤ w) (h2 : w < 334 + L) :
    monthFromDayWithinYear L w = 10 := by
  unfold monthFromDayWithinYear
  rw [iNeg (by omega), iNeg (by omega), iNeg (by omega), iNeg (by omega), iNeg (by omega), iNeg (by omega), iNeg (by omega), iNeg (by omega), iNeg (by omega), iNeg (by omega), iPos (by omega)]

theorem mFDWY_eq11 (L w : Int) (hL0 : 0 ≤ L) (h1 : 334 + L ≤ w) :
    monthFromDayWithinYear L w = 11 := by
  unfold monthFromDayWithinYear
  rw [iNeg (by omega), iNeg (by omega), iNeg (by omega), iNeg (by omega), iNeg (by omega), iNeg (by omega), iNeg (by omega), iNeg (by omega), iNeg (by omega), iNeg (by omega), iNeg (by omega)]

theorem cumDays_window (L w : Int) (hL0 : 0 ≤ L) (hL1 : L ≤ 1) (hw0 : 0 ≤ w)
    (hw1 : w < 365 + L) :
    (0 ≤ monthFromDayWithinYear L w ∧ monthFromDayWithinYear L w ≤ 11) ∧
      cumDays L (monthFromDayWithinYear L w) ≤ w ∧
      w < cumDays L (monthFromDayWithinYear L w) + daysInMonthOf L (monthFromDayWithinYear L w) := by
  rcases lt_or_le w (31) with h1 | h1
  · rw [mFDWY_eq0 L w h1, cumDays_v0 L, dimOf_v0 L]; omega
  rcases lt_or_le w (59 + L) with h2 | h2
  · rw [mFDWY_eq1 L w h1 h2, cumDays_v1 L, dimOf_v1 L]; omega
  rcases lt_or_le w (90 + L) with h3 | h3
  · rw [mFDWY_eq2 L w hL0 h2 h3, cumDays_v2 L, dimOf_v2 L]; omega
  rcases lt_or_le w (120 + L) with h4 | h4
  · rw [mFDWY_eq3 L w hL0 h3 h4, cumDays_v3 L, dimOf_v3 L]; omega
  rcases lt_or_le w (151 + L) with h5 | h5
  · rw [mFDWY_eq4 L w hL0 h4 h5, cumDays_v4 L, dimOf_v4 L]; omega
  rcases lt_or_le w (181 + L) with h6 | h6
  · rw [mFDWY_eq5 L w hL0 h5 h6, cumDays_v5 L, dimOf_v5 L]; omega
  rcases lt_or_le w (212 + L) with h7 | h7
  · rw [mFDWY_eq6 L w hL0 h6 h7, cumDays_v6 L, dimOf_v6 L]; omega
  rcases lt_or_le w (243 + L) with h8 | h8
  · rw [mFDWY_eq7 L w hL0 h7 h8, cumDays_v7 L, dimOf_v7 L]; omega
  rcases lt_or_le w (273 + L) with h9 | h9
  · rw [mFDWY_eq8 L w hL0 h8 h9, cumDays_v8 L, dimOf_v8 L]; omega
  rcases lt_or_le w (304 + L) with h10 | h10
  · rw [mFDWY_eq9 L w hL0 h9 h10, cumDays_v9 L, dimOf_v9 L]; omega
  rcases lt_or_le w (334 + L) with h11 | h11
  · rw [mFDWY_eq10 L w hL0 h10 h11, cumDays_v10 L, dimOf_v10 L]; omega
  rw [mFDWY_eq11 L w hL0 h11, cumDays_v11 L, dimOf_v11 L]; omega

theorem monthFromDayWithinYear_bounds (L w : Int) (hL0 : 0 ≤ L) (hL1 : L ≤ 1) (hw0 : 0 ≤ w)
    (hw1 : w < 365 + L) :
    0 ≤ monthFromDayWithinYear L w ∧ monthFromDayWithinYear L w ≤ 11 :=
  (cumDays_window L w hL0 hL1 hw0 hw1).1

theorem monthOfDay_bounds (d : Int) : 0 ≤ monthOfDay d ∧ monthOfDay d ≤ 11 := by
  have hL := leapDays_bounds (yearFromDay d)
  have hw := dayWithinYear_bounds d
  unfold monthOfDay
  exact monthFromDayWithinYear_bounds _ _ hL.1 hL.2 hw.1 hw.2

theorem monthFromDayWithinYear_of_cum (L m w : Int) (hL0 : 0 ≤ L) (hL1 : L ≤ 1)
    (hm0 : 0 ≤ m) (hm1 : m ≤ 11) (h1 : cumDays L m ≤ w)
    (h2 : w < cumDays L m + daysInMonthOf L m) :
    monthFromDayWithinYear L w = m := by
  interval_cases m
  · rw [cumDays_v0 L] at h1
    rw [cumDays_v0 L, dimOf_v0 L] at h2
    exact mFDWY_eq0 L w (by omega)
  · rw [cumDays_v1 L] at h1
    rw [cumDays_v1 L, dimOf_v1 L] at h2
    exact mFDWY_eq1 L w (by omega) (by omega)
  · rw [cumDays_v2 L] at h1
    rw [cumDays_v2 L, dimOf_v2 L] at h2
    exact mFDWY_eq2 L w hL0 (by omega) (by omega)
  · rw [cumDays_v3 L] at h1
    rw [cumDays_v3 L, dimOf_v3 L] at h2
    exact mFDWY_eq3 L w hL0 (by omega) (by omega)
  · rw [cumDays_v4 L] at h1
    rw [cumDays_v4 L, dimOf_v4 L] at h2
    exact mFDWY_eq4 L w hL0 (by omega) (by omega)
  · rw [cumDays_v5 L] at h1
    rw [cumDays_v5 L, dimOf_v5 L] at h2
    exact mFDWY_eq5 L w hL0 (by omega) (by omega)
  · rw [cumDays_v6 L] at h1
    rw [cumDays_v6 L, dimOf_v6 L] at h2
    exact mFDWY_eq6 L w hL0 (by omega) (by omega)
  · rw [cumDays_v7 L] at h1
    rw [cumDays_v7 L, dimOf_v7 L] at h2
    exact mFDWY_eq7 L w hL0 (by omega) (by omega)
  · rw [cumDays_v8 L] at h1
    rw [cumDays_v8 L, dimOf_v8 L] at h2
    exact mFDWY_eq8 L w hL0 (by omega) (by omega)
  · rw [cumDays_v9 L] at h1
    rw [cumDays_v9 L, dimOf_v9 L] at h2
    exact mFDWY_eq9 L w hL0 (by omega) (by omega)
  · rw [cumDays_v10 L] at h1
    rw [cumDays_v10 L, dimOf_v10 L] at h2
    exact mFDWY_eq10 L w hL0 (by omega) (by omega)
  · rw [cumDays_v11 L] at h1
    rw [cumDays_v11 L, dimOf_v11 L] at h2
    exact mFDWY_eq11 L w hL0 (by omega)

theorem cumDays_bounds (L m : Int) (hL0 : 0 ≤ L) (hL1 : L ≤ 1) (hm0 : 0 ≤ m) (hm1 : m ≤ 11) :
    0 ≤ cumDays L m ∧ cumDays L m + daysInMonthOf L m ≤ 365 + L := by
  interval_cases m
  · rw [cumDays_v0 L, dimOf_v0 L]; omega
  · rw [cumDays_v1 L, dimOf_v1 L]; omega
  · rw [cumDays_v2 L, dimOf_v2 L]; omega
  · rw [cumDays_v3 L, dimOf_v3 L]; omega
  · rw [cumDays_v4 L, dimOf_v4 L]; omega
  · rw [cumDays_v5 L, dimOf_v5 L]; omega
  · rw [cumDays_v6 L, dimOf_v6 L]; omega
  · rw [cumDays_v7 L, dimOf_v7 L]; omega
  · rw [cumDays_v8 L, dimOf_v8 L]; omega
  · rw [cumDays_v9 L, dimOf_v9 L]; omega
  · rw [cumDays_v10 L, dimOf_v10 L]; omega
  · rw [cumDays_v11 L, dimOf_v11 L]; omega

theorem daysInMonthOf_bounds (L m : Int) (hL0 : 0 ≤ L) (hL1 : L ≤ 1) (hm0 : 0 ≤ m)
    (hm1 : m ≤ 11) : 28 ≤ daysInMonthOf L m ∧ daysInMonthOf L m ≤ 31 := by
  interval_cases m
  · rw [dimOf_v0 L]; omega
  · rw [dimOf_v1 L]; omega
  · rw [dimOf_v2 L]; omega
  · rw [dimOf_v3 L]; omega
  · rw [dimOf_v4 L]; omega
  · rw [dimOf_v5 L]; omega
  · rw [dimOf_v6 L]; omega
  · rw [dimOf_v7 L]; omega
  · rw [dimOf_v8 L]; omega
  · rw [dimOf_v9 L]; omega
  · rw [dimOf_v10 L]; omega
  · rw [dimOf_v11 L]; omega

theorem fields_of_makeDay (y m dt : Int) (hm0 : 0 ≤ m) (hm1 : m ≤ 11) (hd1 : 1 ≤ dt)
    (hd2 : dt ≤ daysInMonthOf (leapDays y) m) :
    yearFromDay (makeDay y m dt) = y ∧ monthOfDay (makeDay y m dt) = m ∧
      dateOfDay (makeDay y m dt) = dt := by
  have hL := leapDays_bounds y
  have hdiv : m / 12 = 0 := by omega
  have hmod : m % 12 = m := by omega
  have hmd : makeDay y m dt = dayFromYear y + (cumDays (leapDays y) m + (dt - 1)) := by
    unfold makeDay
    rw [hdiv, hmod]
    simp only [add_zero]
    ring
  have hcb := cumDays_bounds (leapDays y) m hL.1 hL.2 hm0 hm1
  have hw0 : 0 ≤ cumDays (leapDays y) m + (dt - 1) := by omega
  have hw1 : cumDays (leapDays y) m + (dt - 1) < 365 + leapDays y := by omega
  have hy : yearFromDay (makeDay y m dt) = y := by
    apply yearFromDay_eq
    · omega
    · have := dayFromYear_step y
      omega
  refine ⟨hy, ?_, ?_⟩
  · unfold monthOfDay dayWithinYear
    rw [hy]
    have hwval : makeDay y m dt - dayFromYear y = cumDays (leapDays y) m + (dt - 1) := by omega
    rw [hwval]
    exact monthFromDayWithinYear_of_cum _ _ _ hL.1 hL.2 hm0 hm1 (by omega) (by omega)
  · unfold dateOfDay dayWithinYear
    rw [hy]
    have hwval : makeDay y m dt - dayFromYear y = cumDays (leapDays y) m + (dt - 1) := by omega
    rw [hwval]
    have hmm : monthFromDayWithinYear (leapDays y) (cumDays (leapDays y) m + (dt - 1)) = m :=
      monthFromDayWithinYear_of_cum _ _ _ hL.1 hL.2 hm0 hm1 (by omega) (by omega)
    unfold monthOfDay dayWithinYear
    rw [hy]
    rw [hwval, hmm]
    omega

theorem dateOfDay_bounds (d : Int) :
    1 ≤ dateOfDay d ∧
      dateOfDay d ≤ daysInMonthOf (leapDays (yearFromDay d)) (monthOfDay d) := by
  have hL := leapDays_bounds (yearFromDay d)
  have hw := dayWithinYear_bounds d
  have hcw := cumDays_window (leapDays (yearFromDay d)) (dayWithinYear d) hL.1 hL.2 hw.1 hw.2
  unfold dateOfDay
  unfold monthOfDay
  omega

theorem dateOfDay_le_31 (d : Int) : dateOfDay d ≤ 31 := by
  have h := dateOfDay_bounds d
  have hm := monthOfDay_bounds d
  have hL := leapDays_bounds (yearFromDay d)
  have := daysInMonthOf_bounds (leapDays (yearFromDay d)) (monthOfDay d) hL.1 hL.2 hm.1 hm.2
  omega

theorem makeDay_of_fields (d : Int) :
    makeDay (yearFromDay d) (monthOfDay d) (dateOfDay d) = d := by
  have hm := monthOfDay_bounds d
  have hdiv : monthOfDay d / 12 = 0 := by omega
  have hmod : monthOfDay d % 12 = monthOfDay d := by omega
  have hc := yearFromDay_char d
  unfold makeDay
  rw [hdiv, hmod]
  simp only [add_zero]
  unfold dateOfDay dayWithinYear
  omega

theorem makeDay_shift (y m a b : Int) : makeDay y m a = makeDay y m b + (a - b) := by
  unfold makeDay
  ring

theorem cumDays_le_334 (L m : Int) (hL0 : 0 ≤ L) (hm0 : 0 ≤ m) (hm1 : m ≤ 11) :
    cumDays L m ≤ 334 + L := by
  interval_cases m
  · rw [cumDays_v0 L]; omega
  · rw [cumDays_v1 L]; omega
  · rw [cumDays_v2 L]; omega
  · rw [cumDays_v3 L]; omega
  · rw [cumDays_v4 L]; omega
  · rw [cumDays_v5 L]; omega
  · rw [cumDays_v6 L]; omega
  · rw [cumDays_v7 L]; omega
  · rw [cumDays_v8 L]; omega
  · rw [cumDays_v9 L]; omega
  · rw [cumDays_v10 L]; omega
  · rw [cumDays_v11 L]

theorem twd_decomp (t : Int) :
    t = dayNumber t * 86400000 + timeWithinDay t ∧ 0 ≤ timeWithinDay t ∧
      timeWithinDay t < 86400000 := by
  unfold dayNumber timeWithinDay
  omega

theorem dayNumber_mul_add (a r : Int) (h0 : 0 ≤ r) (h1 : r < 86400000) :
    dayNumber (a * 86400000 + r) = a ∧ timeWithinDay (a * 86400000 + r) = r := by
  unfold dayNumber timeWithinDay
  omega

theorem time_recompose (t : Int) :
    getUTCHours t * 3600000 + getUTCMinutes t * 60000 + getUTCSeconds t * 1000 +
      getUTCMilliseconds t = timeWithinDay t := by
  unfold getUTCHours getUTCMinutes getUTCSeconds getUTCMilliseconds timeWithinDay
  omega

theorem makeDay_of_ts (t : Int) :
    makeDay (getUTCFullYear t) (getUTCMonth t) (getUTCDate t) = dayNumber t := by
  unfold getUTCFullYear getUTCMonth getUTCDate
  exact makeDay_of_fields (dayNumber t)

theorem rebuildFromFields_eq (z : Int) : rebuildFromFields z = z := by
  unfold rebuildFromFields
  rw [makeDay_of_ts]
  have h1 := time_recompose z
  have h2 := twd_decomp z
  omega

theorem fields_of_makeDay_ts (y m dt r : Int) (hm0 : 0 ≤ m) (hm1 : m ≤ 11) (hd1 : 1 ≤ dt)
    (hd2 : dt ≤ daysInMonthOf (leapDays y) m) (hr0 : 0 ≤ r) (hr1 : r < 86400000) :
    getUTCFullYear (makeDay y m dt * 86400000 + r) = y ∧
      getUTCMonth (makeDay y m dt * 86400000 + r) = m ∧
      getUTCDate (makeDay y m dt * 86400000 + r) = dt ∧
      timeWithinDay (makeDay y m dt * 86400000 + r) = r := by
  have hdn := dayNumber_mul_add (makeDay y m dt) r hr0 hr1
  have hf := fields_of_makeDay y m dt hm0 hm1 hd1 hd2
  unfold getUTCFullYear getUTCMonth getUTCDate
  rw [hdn.1]
  exact ⟨hf.1, hf.2.1, hf.2.2, hdn.2⟩

theorem setUTCDate_eq (t dt : Int) :
    setUTCDate t dt = (dayNumber t + (dt - getUTCDate t)) * 86400000 + timeWithinDay t := by
  unfold setUTCDate setUTCFullYearMD
  rw [makeDay_shift (getUTCFullYear t) (getUTCMonth t) dt (getUTCDate t), makeDay_of_ts]
  try ring

theorem startOfUTC_day (t : Int) : startOfUTC t TimeUnit.day = dayNumber t * 86400000 := by
  simp only [startOfUTC, setUTCHours4]
  omega

theorem startOfUTC_hour (t : Int) : startOfUTC t TimeUnit.hour = (t / 3600000) * 3600000 := by
  simp only [startOfUTC, setUTCMinutes3]
  unfold getUTCHours dayNumber
  omega

theorem startOfUTC_minute (t : Int) :
    startOfUTC t TimeUnit.minute = (t / 60000) * 60000 := by
  simp only [startOfUTC, setUTCSeconds2]
  unfold getUTCHours getUTCMinutes dayNumber
  omega

theorem startOfUTC_second (t : Int) :
    startOfUTC t TimeUnit.second = (t / 1000) * 1000 := by
  simp only [startOfUTC, setUTCMilliseconds1]
  unfold getUTCHours getUTCMinutes getUTCSeconds dayNumber
  omega

theorem startOfUTC_ms (t : Int) : startOfUTC t TimeUnit.millisecond = t := by
  simp only [startOfUTC]

theorem startOfUTC_month (t : Int) :
    startOfUTC t TimeUnit.month =
      makeDay (getUTCFullYear t) (getUTCMonth t) 1 * 86400000 := by
  simp only [startOfUTC, setUTCHours4]
  have hs := setUTCDate_eq t 1
  have htw := twd_decomp t
  have hsh := makeDay_shift (getUTCFullYear t) (getUTCMonth t) 1 (getUTCDate t)
  have hmk := makeDay_of_ts t
  have hdn := dayNumber_mul_add (dayNumber t + (1 - getUTCDate t)) (timeWithinDay t)
    htw.2.1 htw.2.2
  rw [hs, hdn.1]
  omega

theorem startOfUTC_year (t : Int) :
    startOfUTC t TimeUnit.year = makeDay (getUTCFullYear t) 0 1 * 86400000 := by
  simp only [startOfUTC, setUTCHours4]
  unfold setUTCMonthD setUTCFullYearMD
  have htw := twd_decomp t
  have hdn := dayNumber_mul_add (makeDay (getUTCFullYear t) 0 1) (timeWithinDay t)
    htw.2.1 htw.2.2
  rw [hdn.1]
  omega

theorem startOfUTC_week (t : Int) :
    startOfUTC t TimeUnit.week =
      (dayNumber t - (if getUTCDay t = 0 then 6 else getUTCDay t - 1)) * 86400000 := by
  simp only [startOfUTC, setUTCHours4]
  have hs := setUTCDate_eq t (getUTCDate t - (if getUTCDay t = 0 then 6 else getUTCDay t - 1))
  have htw := twd_decomp t
  have hdn := dayNumber_mul_add
    (dayNumber t + (getUTCDate t - (if getUTCDay t = 0 then 6 else getUTCDay t - 1) -
      getUTCDate t)) (timeWithinDay t) htw.2.1 htw.2.2
  rw [hs, hdn.1]
  omega

theorem jsRem_idiom (tm : Int) : jsRem (jsRem tm 12 + 12) 12 = tm % 12 := by
  unfold jsRem
  split_ifs <;> omega

theorem leapDays_legacy_le (y : Int) (h0 : 0 ≤ y) (h1 : y ≤ 99) :
    leapDays (1900 + y) ≤ leapDays y := by
  unfold leapDays isLeapYear
  split_ifs <;> simp_all <;> omega

theorem makeDay_next_first (y m : Int) (hm0 : 0 ≤ m) (hm1 : m ≤ 11) :
    makeDay y (m + 1) 0 = makeDay y m (daysInMonthOf (leapDays y) m) := by
  rcases lt_or_le m 11 with h | h
  · have hdiv : (m + 1) / 12 = 0 := by omega
    have hmod : (m + 1) % 12 = m + 1 := by omega
    have hdiv2 : m / 12 = 0 := by omega
    have hmod2 : m % 12 = m := by omega
    unfold makeDay daysInMonthOf
    rw [hdiv, hmod, hdiv2, hmod2]
    simp only [add_zero]
    omega
  · have hme : m = 11 := by omega
    subst hme
    have hdiv : ((11 : Int) + 1) / 12 = 1 := by norm_num
    have hmod : ((11 : Int) + 1) % 12 = 0 := by norm_num
    have hdiv2 : (11 : Int) / 12 = 0 := by norm_num
    have hmod2 : (11 : Int) % 12 = 11 := by norm_num
    unfold makeDay
    rw [hdiv, hmod, hdiv2, hmod2]
    simp only [add_zero]
    have hstep := dayFromYear_step y
    have hc0 := cumDays_v0 (leapDays (y + 1))
    have hc11 := cumDays_v11 (leapDays y)
    have hd11 := dimOf_v11 (leapDays y)
    omega

theorem dim_legacy_le (y m : Int) (hm0 : 0 ≤ m) (hm1 : m ≤ 11) :
    daysInMonthOf (leapDays (legacyYear y)) m ≤ daysInMonthOf (leapDays y) m := by
  unfold legacyYear
  split
  · rename_i h
    have hle := leapDays_legacy_le y h.1 h.2
    interval_cases m
    · rw [dimOf_v0 (leapDays (1900 + y)), dimOf_v0 (leapDays y)]
    · rw [dimOf_v1 (leapDays (1900 + y)), dimOf_v1 (leapDays y)]; omega
    · rw [dimOf_v2 (leapDays (1900 + y)), dimOf_v2 (leapDays y)]
    · rw [dimOf_v3 (leapDays (1900 + y)), dimOf_v3 (leapDays y)]
    · rw [dimOf_v4 (leapDays (1900 + y)), dimOf_v4 (leapDays y)]
    · rw [dimOf_v5 (leapDays (1900 + y)), dimOf_v5 (leapDays y)]
    · rw [dimOf_v6 (leapDays (1900 + y)), dimOf_v6 (leapDays y)]
    · rw [dimOf_v7 (leapDays (1900 + y)), dimOf_v7 (leapDays y)]
    · rw [dimOf_v8 (leapDays (1900 + y)), dimOf_v8 (leapDays y)]
    · rw [dimOf_v9 (leapDays (1900 + y)), dimOf_v9 (leapDays y)]
    · rw [dimOf_v10 (leapDays (1900 + y)), dimOf_v10 (leapDays y)]
    · rw [dimOf_v11 (leapDays (1900 + y)), dimOf_v11 (leapDays y)]
  · exact le_refl _

theorem lastDay_bounds (hostOff ty fm : Int) (hh1 : -86400000 < hostOff)
    (hh2 : hostOff < 86400000) (hm0 : 0 ≤ fm) (hm1 : fm ≤ 11) :
    1 ≤ lastDayOfTargetMonth hostOff ty fm ∧
      lastDayOfTargetMonth hostOff ty fm ≤ daysInMonthOf (leapDays ty) fm := by
  unfold lastDayOfTargetMonth newDateLocalMidnight
  rw [makeDay_next_first (legacyYear ty) fm hm0 hm1]
  have hLly := leapDays_bounds (legacyYear ty)
  have hdim := daysInMonthOf_bounds (leapDays (legacyYear ty)) fm hLly.1 hLly.2 hm0 hm1
  have hlg := dim_legacy_le ty fm hm0 hm1
  rcases le_or_lt hostOff 0 with hcase | hcase
  · have heq : makeDay (legacyYear ty) fm (daysInMonthOf (leapDays (legacyYear ty)) fm) *
        86400000 - hostOff =
        makeDay (legacyYear ty) fm (daysInMonthOf (leapDays (legacyYear ty)) fm) *
        86400000 + (-hostOff) := by ring
    rw [heq]
    unfold getUTCDate
    have hf := fields_of_makeDay_ts (legacyYear ty) fm
      (daysInMonthOf (leapDays (legacyYear ty)) fm) (-hostOff)
      hm0 hm1 (by omega) (le_refl _) (by omega) (by omega)
    unfold getUTCDate at hf
    omega
  · have heq : makeDay (legacyYear ty) fm (daysInMonthOf (leapDays (legacyYear ty)) fm) *
        86400000 - hostOff =
        (makeDay (legacyYear ty) fm (daysInMonthOf (leapDays (legacyYear ty)) fm) - 1) *
        86400000 + (86400000 - hostOff) := by ring
    rw [heq]
    have hshift := makeDay_shift (legacyYear ty) fm
      (daysInMonthOf (leapDays (legacyYear ty)) fm - 1)
      (daysInMonthOf (leapDays (legacyYear ty)) fm)
    have heq2 : makeDay (legacyYear ty) fm (daysInMonthOf (leapDays (legacyYear ty)) fm) - 1 =
        makeDay (legacyYear ty) fm (daysInMonthOf (leapDays (legacyYear ty)) fm - 1) := by
      omega
    rw [heq2]
    unfold getUTCDate
    have hf := fields_of_makeDay_ts (legacyYear ty) fm
      (daysInMonthOf (leapDays (legacyYear ty)) fm - 1) (86400000 - hostOff)
      hm0 hm1 (by omega) (by omega) (by omega) (by omega)
    unfold getUTCDate at hf
    omega

theorem handleDST_utc (off : Int → Int) (x : Int) (p : DSTPreference) :
    handleDSTAmbiguity "UTC" off x p = x := by
  unfold handleDSTAmbiguity
  rw [if_pos rfl]

theorem addMonthsCivil_eq (hostOff z amount : Int) (hh1 : -86400000 < hostOff)
    (hh2 : hostOff < 86400000) :
    addMonthsCivil hostOff z amount =
      makeDay (getUTCFullYear z + (getUTCMonth z + amount) / 12)
        ((getUTCMonth z + amount) % 12)
        (min (getUTCDate z)
          (lastDayOfTargetMonth hostOff (getUTCFullYear z + (getUTCMonth z + amount) / 12)
            ((getUTCMonth z + amount) % 12))) * 86400000 + timeWithinDay z := by
  have hjs := jsRem_idiom (getUTCMonth z + amount)
  simp only [addMonthsCivil]
  rw [hjs]
  set ty := getUTCFullYear z + (getUTCMonth z + amount) / 12 with hty
  set fm := (getUTCMonth z + amount) % 12 with hfm
  have hfm0 : 0 ≤ fm := by rw [hfm]; omega
  have hfm1 : fm ≤ 11 := by rw [hfm]; omega
  have htw := twd_decomp z
  have hLty := leapDays_bounds ty
  have hdimty := daysInMonthOf_bounds (leapDays ty) fm hLty.1 hLty.2 hfm0 hfm1
  have hXdef : setUTCFullYearMD z ty fm 1 = makeDay ty fm 1 * 86400000 + timeWithinDay z := rfl
  rw [hXdef, setUTCDate_eq]
  have hdn := dayNumber_mul_add (makeDay ty fm 1) (timeWithinDay z) htw.2.1 htw.2.2
  have hf := fields_of_makeDay_ts ty fm 1 (timeWithinDay z) hfm0 hfm1 (le_refl _)
    (by omega) htw.2.1 htw.2.2
  have hshift := makeDay_shift ty fm
    (min (getUTCDate z) (lastDayOfTargetMonth hostOff ty fm)) 1
  rw [hdn.1, hdn.2, hf.2.2.1]
  omega

theorem addMonthsCivil_fields (hostOff z amount : Int) (hh1 : -86400000 < hostOff)
    (hh2 : hostOff < 86400000) :
    getUTCFullYear (addMonthsCivil hostOff z amount) =
        getUTCFullYear z + (getUTCMonth z + amount) / 12 ∧
      getUTCMonth (addMonthsCivil hostOff z amount) = (getUTCMonth z + amount) % 12 ∧
      getUTCDate (addMonthsCivil hostOff z amount) =
        min (getUTCDate z)
          (lastDayOfTargetMonth hostOff (getUTCFullYear z + (getUTCMonth z + amount) / 12)
            ((getUTCMonth z + amount) % 12)) ∧
      timeWithinDay (addMonthsCivil hostOff z amount) = timeWithinDay z := by
  rw [addMonthsCivil_eq hostOff z amount hh1 hh2]
  set ty := getUTCFullYear z + (getUTCMonth z + amount) / 12 with hty
  set fm := (getUTCMonth z + amount) % 12 with hfm
  have hfm0 : 0 ≤ fm := by rw [hfm]; omega
  have hfm1 : fm ≤ 11 := by rw [hfm]; omega
  have htw := twd_decomp z
  have hld := lastDay_bounds hostOff ty fm hh1 hh2 hfm0 hfm1
  have hD := dateOfDay_bounds (dayNumber z)
  have hDe : getUTCDate z = dateOfDay (dayNumber z) := rfl
  exact fields_of_makeDay_ts ty fm
    (min (getUTCDate z) (lastDayOfTargetMonth hostOff ty fm)) (timeWithinDay z)
    hfm0 hfm1 (by rw [hDe] at *; omega) (by omega) htw.2.1 htw.2.2

theorem addTime_utc_month (hostOff t amount : Int) :
    addTimeWithDST "UTC" (fun _ => 0) hostOff t amount TimeUnit.month =
      addMonthsCivil hostOff t amount := by
  simp only [addTimeWithDST, civilFieldAdd]
  rw [handleDST_utc]
  simp only [sub_zero, add_zero]

theorem addTime_utc_day (hostOff t a : Int) :
    addTimeWithDST "UTC" (fun _ => 0) hostOff t a TimeUnit.day = t + a * 86400000 := by
  simp only [addTimeWithDST, civilFieldAdd]
  rw [handleDST_utc]
  simp only [sub_zero, add_zero]
  rw [setUTCDate_eq]
  have htw := twd_decomp t
  omega

theorem addTime_utc_week (hostOff t a : Int) :
    addTimeWithDST "UTC" (fun _ => 0) hostOff t a TimeUnit.week = t + a * 7 * 86400000 := by
  simp only [addTimeWithDST, civilFieldAdd]
  rw [handleDST_utc]
  simp only [sub_zero, add_zero]
  rw [setUTCDate_eq]
  have htw := twd_decomp t
  omega

theorem addTime_utc_year (hostOff t a : Int) :
    addTimeWithDST "UTC" (fun _ => 0) hostOff t a TimeUnit.year =
      makeDay (getUTCFullYear t + a) (getUTCMonth t) (getUTCDate t) * 86400000 +
        timeWithinDay t := by
  simp only [addTimeWithDST, civilFieldAdd]
  rw [handleDST_utc]
  simp only [sub_zero, add_zero]
  rfl

theorem addTime_utc_year_year (hostOff t a : Int) :
    getUTCFullYear (addTimeWithDST "UTC" (fun _ => 0) hostOff t a TimeUnit.year) =
      getUTCFullYear t + a := by
  rw [addTime_utc_year]
  have hM := monthOfDay_bounds (dayNumber t)
  have hMe : getUTCMonth t = monthOfDay (dayNumber t) := rfl
  have hD1 := dateOfDay_bounds (dayNumber t)
  have hD31 := dateOfDay_le_31 (dayNumber t)
  have hDe : getUTCDate t = dateOfDay (dayNumber t) := rfl
  have htw := twd_decomp t
  have hLy := leapDays_bounds (getUTCFullYear t + a)
  have hcle := cumDays_le_334 (leapDays (getUTCFullYear t + a)) (getUTCMonth t) hLy.1
    (by rw [hMe]; omega) (by rw [hMe]; omega)
  have hc0 : 0 ≤ cumDays (leapDays (getUTCFullYear t + a)) (getUTCMonth t) ∧
      cumDays (leapDays (getUTCFullYear t + a)) (getUTCMonth t) +
        daysInMonthOf (leapDays (getUTCFullYear t + a)) (getUTCMonth t) ≤
        365 + leapDays (getUTCFullYear t + a) :=
    cumDays_bounds (leapDays (getUTCFullYear t + a)) (getUTCMonth t) hLy.1 hLy.2
      (by rw [hMe]; omega) (by rw [hMe]; omega)
  have hmd : makeDay (getUTCFullYear t + a) (getUTCMonth t) (getUTCDate t) =
      dayFromYear (getUTCFullYear t + a) +
        (cumDays (leapDays (getUTCFullYear t + a)) (getUTCMonth t) + (getUTCDate t - 1)) := by
    unfold makeDay
    have hdiv : getUTCMonth t / 12 = 0 := by rw [hMe]; omega
    have hmod : getUTCMonth t % 12 = getUTCMonth t := by rw [hMe]; omega
    rw [hdiv, hmod]
    simp only [add_zero]
    ring
  have hstep := dayFromYear_step (getUTCFullYear t + a)
  have hdn := dayNumber_mul_add
    (makeDay (getUTCFullYear t + a) (getUTCMonth t) (getUTCDate t)) (timeWithinDay t)
    htw.2.1 htw.2.2
  show yearFromDay (dayNumber
      (makeDay (getUTCFullYear t + a) (getUTCMonth t) (getUTCDate t) * 86400000 +
        timeWithinDay t)) = getUTCFullYear t + a
  rw [hdn.1]
  apply yearFromDay_eq
  · rw [hmd]
    omega
  · rw [hmd]
    omega

theorem fields_of_day_ts (a : Int) :
    dayNumber (a * 86400000) = a ∧ timeWithinDay (a * 86400000) = 0 := by
  unfold dayNumber timeWithinDay
  omega

theorem fields_of_makeDay_ts0 (y m dt : Int) (hm0 : 0 ≤ m) (hm1 : m ≤ 11) (hd1 : 1 ≤ dt)
    (hd2 : dt ≤ daysInMonthOf (leapDays y) m) :
    getUTCFullYear (makeDay y m dt * 86400000) = y ∧
      getUTCMonth (makeDay y m dt * 86400000) = m ∧
      getUTCDate (makeDay y m dt * 86400000) = dt := by
  have hf := fields_of_makeDay y m dt hm0 hm1 hd1 hd2
  have hdn := fields_of_day_ts (makeDay y m dt)
  unfold getUTCFullYear getUTCMonth getUTCDate
  rw [hdn.1]
  exact hf

theorem startOfUTC_idem (t : Int) (u : TimeUnit) :
    startOfUTC (startOfUTC t u) u = startOfUTC t u := by
  cases u with
  | millisecond => rfl
  | second =>
      rw [startOfUTC_second t, startOfUTC_second ((t / 1000) * 1000)]
      omega
  | minute =>
      rw [startOfUTC_minute t, startOfUTC_minute ((t / 60000) * 60000)]
      omega
  | hour =>
      rw [startOfUTC_hour t, startOfUTC_hour ((t / 3600000) * 3600000)]
      omega
  | day =>
      rw [startOfUTC_day t, startOfUTC_day (dayNumber t * 86400000)]
      unfold dayNumber
      omega
  | week =>
      rw [startOfUTC_week t]
      by_cases h0 : getUTCDay t = 0
      · rw [if_pos h0]
        rw [startOfUTC_week ((dayNumber t - 6) * 86400000)]
        have hdnv : dayNumber ((dayNumber t - 6) * 86400000) = dayNumber t - 6 := by
          unfold dayNumber
          omega
        have hgd : getUTCDay ((dayNumber t - 6) * 86400000) = (dayNumber t - 6 + 4) % 7 := by
          unfold getUTCDay weekdayOfDay
          rw [hdnv]
        have hday : getUTCDay t = (dayNumber t + 4) % 7 := rfl
        rw [hday] at h0
        have hv1 : getUTCDay ((dayNumber t - 6) * 86400000) = 1 := by
          rw [hgd]
          omega
        rw [hv1, hdnv]
        norm_num
      · rw [if_neg h0]
        have hday : getUTCDay t = (dayNumber t + 4) % 7 := rfl
        rw [hday] at h0 ⊢
        rw [startOfUTC_week ((dayNumber t - ((dayNumber t + 4) % 7 - 1)) * 86400000)]
        have hdnv : dayNumber ((dayNumber t - ((dayNumber t + 4) % 7 - 1)) * 86400000) =
            dayNumber t - ((dayNumber t + 4) % 7 - 1) := by
          unfold dayNumber
          omega
        have hgd : getUTCDay ((dayNumber t - ((dayNumber t + 4) % 7 - 1)) * 86400000) =
            (dayNumber t - ((dayNumber t + 4) % 7 - 1) + 4) % 7 := by
          unfold getUTCDay weekdayOfDay
          rw [hdnv]
        have hv1 : getUTCDay ((dayNumber t - ((dayNumber t + 4) % 7 - 1)) * 86400000) = 1 := by
          rw [hgd]
          omega
        rw [hv1, hdnv]
        norm_num
  | month =>
      rw [startOfUTC_month t,
        startOfUTC_month (makeDay (getUTCFullYear t) (getUTCMonth t) 1 * 86400000)]
      have hM := monthOfDay_bounds (dayNumber t)
      have hMe : getUTCMonth t = monthOfDay (dayNumber t) := rfl
      have hLy := leapDays_bounds (getUTCFullYear t)
      have hdim := daysInMonthOf_bounds (leapDays (getUTCFullYear t)) (getUTCMonth t)
        hLy.1 hLy.2 (by omega) (by omega)
      have hf := fields_of_makeDay_ts0 (getUTCFullYear t) (getUTCMonth t) 1
        (by omega) (by omega) (le_refl _) (by omega)
      rw [hf.1, hf.2.1]
  | year =>
      rw [startOfUTC_year t,
        startOfUTC_year (makeDay (getUTCFullYear t) 0 1 * 86400000)]
      have hLy := leapDays_bounds (getUTCFullYear t)
      have hdim := daysInMonthOf_bounds (leapDays (getUTCFullYear t)) 0
        hLy.1 hLy.2 (le_refl _) (by omega)
      have hf := fields_of_makeDay_ts0 (getUTCFullYear t) 0 1
        (le_refl _) (by omega) (le_refl _) (by omega)
      rw [hf.1]

theorem startOf_utc_dispatch (off : Int → Int) (hostOff x : Int) (v : TimeUnit) :
    Krono.startOf "UTC" off hostOff x v = startOfUTC x v := by
  unfold Krono.startOf
  rw [if_pos rfl]

theorem endOf_eq_startOf_of_add (zoneName : String) (off : Int → Int) (hostOff t : Int)
    (u : TimeUnit) :
    Krono.endOf zoneName off hostOff t u =
      Krono.startOf zoneName off hostOff (addTimeWithDST zoneName off hostOff t 1 u) u - 1 := by
  unfold Krono.endOf
  simp only [addTimeWithDST]
  omega

theorem endOf_utc_spec (hostOff t : Int) (u : TimeUnit) (hh1 : -86400000 < hostOff)
    (hh2 : hostOff < 86400000) :
    Krono.endOf "UTC" (fun _ => 0) hostOff t u =
      addTimeWithDST "UTC" (fun _ => 0) hostOff
        (Krono.startOf "UTC" (fun _ => 0) hostOff t u) 1 u - 1 := by
  unfold Krono.endOf
  simp only [startOf_utc_dispatch]
  cases u with
  | millisecond => simp only [addTimeWithDST, startOfUTC]; omega
  | second =>
      simp only [addTimeWithDST]
      rw [startOfUTC_second (t + 1 * 1000), startOfUTC_second t]
      omega
  | minute =>
      simp only [addTimeWithDST]
      rw [startOfUTC_minute (t + 1 * 60000), startOfUTC_minute t]
      omega
  | hour =>
      simp only [addTimeWithDST]
      rw [startOfUTC_hour (t + 1 * 3600000), startOfUTC_hour t]
      omega
  | day =>
      simp only [addTime_utc_day]
      simp only [addTimeWithDST]
      rw [startOfUTC_day (t + 1 * 86400000), startOfUTC_day t]
      unfold dayNumber
      omega
  | week =>
      simp only [addTime_utc_week]
      simp only [addTimeWithDST]
      rw [startOfUTC_week (t + 1 * 7 * 86400000), startOfUTC_week t]
      have hdn7 : dayNumber (t + 1 * 7 * 86400000) = dayNumber t + 7 := by
        unfold dayNumber
        omega
      have hgd7 : getUTCDay (t + 1 * 7 * 86400000) = getUTCDay t := by
        unfold getUTCDay weekdayOfDay dayNumber
        omega
      rw [hdn7, hgd7]
      by_cases h0 : getUTCDay t = 0
      · rw [if_pos h0]
        omega
      · rw [if_neg h0]
        omega
  | month =>
      simp only [addTime_utc_month]
      simp only [addTimeWithDST]
      rw [startOfUTC_month (addMonthsCivil hostOff t 1)]
      have hfa := addMonthsCivil_fields hostOff t 1 hh1 hh2
      rw [hfa.1, hfa.2.1]
      rw [startOfUTC_month t]
      rw [addMonthsCivil_eq hostOff (makeDay (getUTCFullYear t) (getUTCMonth t) 1 * 86400000)
        1 hh1 hh2]
      have hM := monthOfDay_bounds (dayNumber t)
      have hMe : getUTCMonth t = monthOfDay (dayNumber t) := rfl
      have hLy := leapDays_bounds (getUTCFullYear t)
      have hdim := daysInMonthOf_bounds (leapDays (getUTCFullYear t)) (getUTCMonth t)
        hLy.1 hLy.2 (by omega) (by omega)
      have hfv := fields_of_makeDay_ts0 (getUTCFullYear t) (getUTCMonth t) 1
        (by omega) (by omega) (le_refl _) (by omega)
      rw [hfv.1, hfv.2.1, hfv.2.2]
      have htwv := (fields_of_day_ts (makeDay (getUTCFullYear t) (getUTCMonth t) 1)).2
      rw [htwv]
      have hld := lastDay_bounds hostOff (getUTCFullYear t + (getUTCMonth t + 1) / 12)
        ((getUTCMonth t + 1) % 12) hh1 hh2 (by omega) (by omega)
      have hmin : min 1
          (lastDayOfTargetMonth hostOff (getUTCFullYear t + (getUTCMonth t + 1) / 12)
            ((getUTCMonth t + 1) % 12)) = 1 := by
        omega
      rw [hmin]
      omega
  | year =>
      rw [startOfUTC_year t]
      have hLy := leapDays_bounds (getUTCFullYear t)
      have hdim0 := daysInMonthOf_bounds (leapDays (getUTCFullYear t)) 0
        hLy.1 hLy.2 (le_refl _) (by omega)
      have hfv := fields_of_makeDay_ts0 (getUTCFullYear t) 0 1
        (le_refl _) (by omega) (le_refl _) (by omega)
      rw [addTime_utc_year hostOff (makeDay (getUTCFullYear t) 0 1 * 86400000) 1]
      rw [hfv.1, hfv.2.1, hfv.2.2, (fields_of_day_ts (makeDay (getUTCFullYear t) 0 1)).2]
      rw [startOfUTC_year (addTimeWithDST "UTC" (fun _ => 0) hostOff t 1 TimeUnit.year),
        addTime_utc_year_year hostOff t 1]
      simp only [addTimeWithDST]
      omega

theorem validateTimestamp_ok (t : Int) (h1 : -8640000000000000 ≤ t)
    (h2 : t ≤ 8640000000000000) : validateTimestamp t = Except.ok () := by
  unfold validateTimestamp
  rw [if_neg]
  rw [not_lt]
  rw [abs_le]
  exact ⟨h1, h2⟩

theorem zoneIsValid_false (validCache : List String) (oracleValid : String → Bool)
    (z : String) (h1 : oracleValid z = false) (h2 : z ∉ validCache) :
    zoneIsValid validCache oracleValid z = (false, validCache) := by
  unfold zoneIsValid
  rw [if_neg h2, h1]
  rw [if_neg]
  simp

theorem mkKrono_ok_bounds (oracleValid : String → Bool) (validCache : List String) (t : Int)
    (locale zoneName : String) (debug : Bool) (s : KronoState) (c : List String)
    (h : mkKrono oracleValid validCache t locale zoneName debug = Except.ok (s, c)) :
    -8640000000000000 ≤ s.time ∧ s.time ≤ 8640000000000000 := by
  unfold mkKrono validateTimestamp at h
  by_cases habs : 8640000000000000 < |t|
  · rw [if_pos habs] at h
    exact absurd h (by simp)
  · rw [if_neg habs] at h
    rw [not_lt, abs_le] at habs
    by_cases hz : zoneName = "UTC"
    · rw [if_pos hz] at h
      simp only [Except.ok.injEq, Prod.mk.injEq] at h
      rw [← h.1]
      exact ⟨habs.1, habs.2⟩
    · rw [if_neg hz] at h
      rcases hzv : zoneIsValid validCache oracleValid zoneName with ⟨b, c2⟩
      rw [hzv] at h
      cases b with
      | true =>
          simp only [Except.ok.injEq, Prod.mk.injEq] at h
          rw [← h.1]
          exact ⟨habs.1, habs.2⟩
      | false => exact absurd h (by simp)

theorem mkKrono_ok_of_valid (oracleValid : String → Bool) (validCache : List String) (t : Int)
    (locale zoneName : String) (debug : Bool)
    (hv : (zoneIsValid validCache oracleValid zoneName).1 = true)
    (h1 : -8640000000000000 ≤ t) (h2 : t ≤ 8640000000000000) :
    ∃ c, mkKrono oracleValid validCache t locale zoneName debug =
      Except.ok (⟨t, locale, zoneName, debug⟩, c) := by
  unfold mkKrono
  rw [validateTimestamp_ok t h1 h2]
  by_cases hz : zoneName = "UTC"
  · rw [if_pos hz]
    exact ⟨validCache, rfl⟩
  · rw [if_neg hz]
    rcases hzv : zoneIsValid validCache oracleValid zoneName with ⟨b, c2⟩
    rw [hzv] at hv
    simp only at hv
    rw [hv]
    exact ⟨c2, rfl⟩

set_option maxRecDepth 40000 in
/-- C1: month addition is specified to clamp the civil day-of-month to
`min(originalDay, daysInTargetMonth)`, with `2025-01-31` plus one month
giving `2025-02-28` and `2024-01-31` plus one month giving `2024-02-29`
in every environment.  The code computes the target month's length as
`new Date(targetYear, finalMonth + 1, 0).getUTCDate()` — a local-time
construction read back through a UTC accessor — so on a host at fixed
offset +01:00 (`hostOff = 3600000`, e.g. Etc/GMT-1) the reported length
is one day short: `2025-01-31T00:00Z` plus one month lands on day 27
(2025-02-27) and `2024-01-31T00:00Z` on day 28 (2024-02-28),
contradicting the claimed values, which hold only on a UTC host
(`hostOff = 0`).  Instance zone is UTC, so the DST adjustment is the
identity. -/
theorem claimC1 :
    (getUTCFullYear 1738281600000 = 2025 ∧ getUTCMonth 1738281600000 = 0 ∧
      getUTCDate 1738281600000 = 31) ∧
    getUTCDate (addTimeWithDST "UTC" (fun _ => 0) 0 1738281600000 1 TimeUnit.month) = 28 ∧
    (getUTCMonth (addTimeWithDST "UTC" (fun _ => 0) 3600000 1738281600000 1 TimeUnit.month) = 1 ∧
      getUTCDate (addTimeWithDST "UTC" (fun _ => 0) 3600000 1738281600000 1 TimeUnit.month) = 27) ∧
    (getUTCFullYear 1706659200000 = 2024 ∧ getUTCMonth 1706659200000 = 0 ∧
      getUTCDate 1706659200000 = 31) ∧
    getUTCDate (addTimeWithDST "UTC" (fun _ => 0) 0 1706659200000 1 TimeUnit.month) = 29 ∧
    getUTCDate (addTimeWithDST "UTC" (fun _ => 0) 3600000 1706659200000 1 TimeUnit.month) = 28 := by
  decide

set_option maxRecDepth 40000 in
/-- Counterexample to C2 as stated: for an instance in zone Etc/GMT+5 on
a UTC host, `endOf(month)` of 2025-03-15T12:00Z does not coincide with
the spec's definition `startOf(month)` advanced by one month minus one
millisecond — the code takes `startOf` of the *already advanced* instant,
and the zoned `startOf` is not translation-compatible because it
re-parses a rebuilt ISO string in the host zone. -/
theorem claimC2_cex :
    Krono.endOf "Etc/GMT+5" (fun _ => 18000000) 0 1742040000000 TimeUnit.month =
      1743465599999 ∧
    addTimeWithDST "Etc/GMT+5" (fun _ => 18000000) 0
        (addTimeWithDST "Etc/GMT+5" (fun _ => 18000000) 0
          (Krono.startOf "Etc/GMT+5" (fun _ => 18000000) 0 1742040000000 TimeUnit.month)
          1 TimeUnit.month)
        (-1) TimeUnit.millisecond = 1743206399999 ∧
    (1743465599999 : Int) ≠ 1743206399999 := by
  decide

/-- C2 (amended): (i) for every zone, offset function, host offset,
instant and unit, `endOf(i, u) = startOf(add(i, 1, u), u) − 1` — this is
the identity the code realises, since subtracting one millisecond is
exact; and (ii) for instances in the UTC zone (any host offset strictly
between ±24 h) this coincides with the spec's formula
`add(startOf(i, u), 1, u) − 1`, i.e. `endOf` is exactly one millisecond
before the next period's start.  For non-UTC instance zones part (ii)
can fail (see the counterexample). -/
theorem claimC2 :
    (∀ (zoneName : String) (off : Int → Int) (hostOff t : Int) (u : TimeUnit),
      Krono.endOf zoneName off hostOff t u =
        Krono.startOf zoneName off hostOff (addTimeWithDST zoneName off hostOff t 1 u) u - 1) ∧
    (∀ (hostOff t : Int) (u : TimeUnit), -86400000 < hostOff → hostOff < 86400000 →
      Krono.endOf "UTC" (fun _ => 0) hostOff t u =
        addTimeWithDST "UTC" (fun _ => 0) hostOff
          (Krono.startOf "UTC" (fun _ => 0) hostOff t u) 1 u - 1) :=
  ⟨endOf_eq_startOf_of_add, fun hostOff t u h1 h2 => endOf_utc_spec hostOff t u h1 h2⟩

/-- Witness for C2 at a concrete input: 2025-03-15T12:00Z, unit month,
host offset +01:00. -/
theorem claimC2_witness :
    Krono.endOf "UTC" (fun _ => 0) 3600000 1742040000000 TimeUnit.month =
      addTimeWithDST "UTC" (fun _ => 0) 3600000
        (Krono.startOf "UTC" (fun _ => 0) 3600000 1742040000000 TimeUnit.month) 1
        TimeUnit.month - 1 :=
  claimC2.2 3600000 1742040000000 TimeUnit.month (by decide) (by decide)

set_option maxRecDepth 40000 in
/-- C3: when the trimmed input has an ISO-date-shaped prefix (after the
"now" sentinel, natural-language and relative stages decline), the
calendar validity of the components is checked — month 1–12, day bounded
by that month's length with the leap-year February adjustment — and a
validation failure aborts parsing with exactly the validation error, a
parse-class error.  Concretely, parsing `"2025-02-30"` and `"2025-02-29"`
fails with a parse-class error and `"2024-02-29"` parses to the timestamp
of 2024-02-29T00:00:00Z. -/
theorem claimC3 :
    (∀ (zoneName : String) (off : Int → Int) (hostOff now : Int) (input : String)
        (y mo d : Int) (e : KronoErr),
      lowerChars (trimChars input.data) ≠ "now".data →
      parseNaturalLanguage (trimChars input.data) = none →
      relSearch (lowerChars (trimChars input.data)) = none →
      isoMatchYMD (trimChars input.data) = some (y, mo, d) →
      validateDateComponents y mo d = Except.error e →
      parseToTime zoneName off hostOff now input = Except.error e) ∧
    isParseError (parseToTime "UTC" (fun _ => 0) 0 0 "2025-02-30") = true ∧
    isParseError (parseToTime "UTC" (fun _ => 0) 0 0 "2025-02-29") = true ∧
    parseToTime "UTC" (fun _ => 0) 0 0 "2024-02-29" = Except.ok 1709164800000 := by
  refine ⟨?_, by decide, by decide, by decide⟩
  intro zoneName off hostOff now input y mo d e h1 h2 h3 h4 h5
  simp only [parseToTime, if_neg h1, h2, h3, h4, h5]

set_option maxRecDepth 40000 in
/-- Witness for C3: the general validation-failure conjunct applied to
the input `"2025-02-30"`, whose stage results are evaluated concretely. -/
theorem claimC3_witness :
    parseToTime "UTC" (fun _ => 0) 0 0 "2025-02-30" =
      Except.error (KronoErr.kronoParseError "2025-2-30"
        "Invalid day 30 for month 2 in year 2025") :=
  claimC3.1 "UTC" (fun _ => 0) 0 0 "2025-02-30" 2025 2 30
    (KronoErr.kronoParseError "2025-2-30" "Invalid day 30 for month 2 in year 2025")
    (by decide) (by decide) (by decide) (by decide) (by decide)

set_option maxRecDepth 40000 in
/-- C4: the relative-expression stage matches case-insensitively (the
regex runs on the lowercased trimmed string), but the negation check is
`str.includes("ago")` on the ORIGINAL trimmed string and
`String.prototype.includes` is case-sensitive, so the upper-case input
`"3 DAYS AGO"` is matched yet NOT negated: parsed at reference time 0 it
yields +3 days (259200000 ms) while `"3 days ago"` yields −3 days,
contradicting the claim that the presence of the word "ago" negates the
amount for every casing of the input. -/
theorem claimC4 :
    parseToTime "UTC" (fun _ => 0) 0 0 "3 days ago" = Except.ok (-259200000) ∧
    parseToTime "UTC" (fun _ => 0) 0 0 "3 DAYS AGO" = Except.ok 259200000 ∧
    (259200000 : Int) ≠ -259200000 := by
  decide

set_option maxRecDepth 40000 in
/-- Counterexample to C5 as stated: for an instance in zone Etc/GMT+5 on
a UTC host, `startOf(day)` of 2025-06-15T12:00Z (= 1749988800000) is
2025-06-15T00:00Z (= 1749945600000), but applying `startOf(day)` again
gives 2025-06-14T00:00Z (= 1749859200000) — the zoned branch rebuilds an
ISO string from zone-local fields and re-parses it with `new Date`, which
shifts the instant by the zone offset on every application, so `startOf`
is not idempotent for non-UTC instances. -/
theorem claimC5_cex :
    Krono.startOf "Etc/GMT+5" (fun _ => 18000000) 0 1749988800000 TimeUnit.day =
      1749945600000 ∧
    Krono.startOf "Etc/GMT+5" (fun _ => 18000000) 0
        (Krono.startOf "Etc/GMT+5" (fun _ => 18000000) 0 1749988800000 TimeUnit.day)
        TimeUnit.day = 1749859200000 ∧
    (1749859200000 : Int) ≠ 1749945600000 := by
  decide

/-- C5 (amended): `startOf` is idempotent for instances in the UTC zone:
for every offset function, host offset, instant and unit,
`startOf(startOf(i, u), u) = startOf(i, u)`.  For non-UTC instance zones
idempotence fails (see the counterexample). -/
theorem claimC5 :
    ∀ (off : Int → Int) (hostOff t : Int) (u : TimeUnit),
      Krono.startOf "UTC" off hostOff (Krono.startOf "UTC" off hostOff t u) u =
        Krono.startOf "UTC" off hostOff t u := by
  intro off hostOff t u
  simp only [startOf_utc_dispatch]
  exact startOfUTC_idem t u

/-- C6: the offset resolver returns 0 for the UTC sentinel
unconditionally, without consulting or updating the cache, and
consequently converting any timestamp from UTC to UTC is the identity
with the cache unchanged. -/
theorem claimC6 :
    ∀ (oracleParts : Int → String → Option CivilParts) (cache : LRUMap) (t : Int),
      getOffset oracleParts cache t "UTC" = (0, cache) ∧
      convertToZone oracleParts cache t "UTC" "UTC" = (t, cache) :=
  fun _ _ _ => ⟨rfl, rfl⟩

/-- C7: constructing an instant with a non-UTC zone identifier that is
not in the validity cache and fails the validity oracle always yields the
zone error when the timestamp is in range, and never succeeds for any
timestamp — it neither falls back to UTC nor produces an instant carrying
the invalid zone. -/
theorem claimC7 (oracleValid : String → Bool) (validCache : List String) (t : Int)
    (locale zoneName : String) (debug : Bool)
    (hz : zoneName ≠ "UTC") (ho : oracleValid zoneName = false)
    (hc : zoneName ∉ validCache) :
    (-8640000000000000 ≤ t → t ≤ 8640000000000000 →
      mkKrono oracleValid validCache t locale zoneName debug =
        Except.error (KronoErr.kronoTimezoneError zoneName)) ∧
    ∀ s c, mkKrono oracleValid validCache t locale zoneName debug ≠ Except.ok (s, c) := by
  constructor
  · intro h1 h2
    simp only [mkKrono, validateTimestamp_ok t h1 h2, if_neg hz,
      zoneIsValid_false validCache oracleValid zoneName ho hc]
  · intro s c hcon
    unfold mkKrono at hcon
    cases hval : validateTimestamp t with
    | error e =>
        rw [hval] at hcon
        exact absurd hcon (by simp)
    | ok u =>
        rw [hval] at hcon
        simp only [if_neg hz,
          zoneIsValid_false validCache oracleValid zoneName ho hc] at hcon
        exact absurd hcon (by simp)

/-- Witness for C7 at a concrete input: the zone identifier
`"Invalid/Zone"`, rejected by the oracle, with timestamp 0. -/
theorem claimC7_witness :
    mkKrono (fun _ => false) [] 0 "en-GB" "Invalid/Zone" false =
      Except.error (KronoErr.kronoTimezoneError "Invalid/Zone") :=
  (claimC7 (fun _ => false) [] 0 "en-GB" "Invalid/Zone" false (by decide) rfl
    (by decide)).1 (by decide) (by decide)

/-- C8: the static `min` and `max` over an empty list of instants return
the generic domain error `"No dates provided"`; over a one-element list
they return that element. -/
theorem claimC8 :
    Krono.min [] = Except.error (KronoErr.kronoError "No dates provided") ∧
    Krono.max [] = Except.error (KronoErr.kronoError "No dates provided") ∧
    (∀ k : KronoState, Krono.min [k] = Except.ok k) ∧
    (∀ k : KronoState, Krono.max [k] = Except.ok k) :=
  ⟨rfl, rfl, fun _ => rfl, fun _ => rfl⟩

/-- C9: zone conversion changes only the zone field: for every instance
state whose timestamp is in range and every zone accepted by the validity
check, `tz` returns a new state with the same raw timestamp and the same
locale and the requested zone; `utc` on that state returns the same
timestamp and locale with zone `"UTC"` (so conversion round-trips through
UTC preserving `valueOf`), and `local` behaves likewise for a valid
system zone. -/
theorem claimC9 (oracleValid : String → Bool) (validCache : List String) (k : KronoState)
    (z : String)
    (hv : (zoneIsValid validCache oracleValid z).1 = true)
    (h1 : -8640000000000000 ≤ k.time) (h2 : k.time ≤ 8640000000000000) :
    (∃ c, Krono.tz oracleValid validCache k z =
        Except.ok (⟨k.time, k.locale, z, k.debug⟩, c)) ∧
    (∀ c2 : List String, Krono.utc oracleValid c2 ⟨k.time, k.locale, z, k.debug⟩ =
        Except.ok (⟨k.time, k.locale, "UTC", k.debug⟩, c2)) ∧
    (∀ (c3 : List String) (systemZone : String),
      (zoneIsValid c3 oracleValid systemZone).1 = true →
      ∃ c, Krono.local oracleValid c3 systemZone k =
        Except.ok (⟨k.time, k.locale, systemZone, k.debug⟩, c)) := by
  refine ⟨?_, ?_, ?_⟩
  · exact mkKrono_ok_of_valid oracleValid validCache k.time k.locale z k.debug hv h1 h2
  · intro c2
    show mkKrono oracleValid c2 k.time k.locale "UTC" k.debug = _
    unfold mkKrono
    rw [validateTimestamp_ok k.time h1 h2]
    rfl
  · intro c3 systemZone hv3
    exact mkKrono_ok_of_valid oracleValid c3 k.time k.locale systemZone k.debug hv3 h1 h2

/-- Witness for C9 at a concrete input: converting the state
`⟨0, "en-GB", "Europe/Paris", false⟩` back to UTC preserves timestamp and
locale. -/
theorem claimC9_witness :
    Krono.utc (fun _ => true) [] ⟨0, "en-GB", "Europe/Paris", false⟩ =
      Except.ok (⟨0, "en-GB", "UTC", false⟩, []) :=
  (claimC9 (fun _ => true) [] ⟨0, "en-GB", "UTC", false⟩ "Europe/Paris" (by decide)
    (by decide) (by decide)).2.1 []

/-- C10: every reachable instance has a timestamp within
±8.64×10¹⁵ ms: whenever the constructor, `add`, `subtract`,
`startOf`, `tz` or string creation succeeds with a new state, that
state's timestamp lies in the range — an operation whose result would
leave the range yields an error instead of an out-of-range instant. -/
theorem claimC10 :
    (∀ (oracleValid : String → Bool) (validCache : List String) (t : Int)
        (locale zoneName : String) (debug : Bool) (s : KronoState) (c : List String),
      mkKrono oracleValid validCache t locale zoneName debug = Except.ok (s, c) →
      -8640000000000000 ≤ s.time ∧ s.time ≤ 8640000000000000) ∧
    (∀ (oracleValid : String → Bool) (validCache : List String) (off : Int → Int)
        (hostOff : Int) (k : KronoState) (amount : Int) (u : TimeUnit) (s : KronoState)
        (c : List String),
      Krono.add oracleValid validCache off hostOff k amount u = Except.ok (s, c) →
      -8640000000000000 ≤ s.time ∧ s.time ≤ 8640000000000000) ∧
    (∀ (oracleValid : String → Bool) (validCache : List String) (off : Int → Int)
        (hostOff : Int) (k : KronoState) (amount : Int) (u : TimeUnit) (s : KronoState)
        (c : List String),
      Krono.subtract oracleValid validCache off hostOff k amount u = Except.ok (s, c) →
      -8640000000000000 ≤ s.time ∧ s.time ≤ 8640000000000000) ∧
    (∀ (oracleValid : String → Bool) (validCache : List String) (off : Int → Int)
        (hostOff : Int) (k : KronoState) (u : TimeUnit) (s : KronoState) (c : List String),
      Krono.startOfInstance oracleValid validCache off hostOff k u = Except.ok (s, c) →
      -8640000000000000 ≤ s.time ∧ s.time ≤ 8640000000000000) ∧
    (∀ (oracleValid : String → Bool) (validCache : List String) (k : KronoState)
        (z : String) (s : KronoState) (c : List String),
      Krono.tz oracleValid validCache k z = Except.ok (s, c) →
      -8640000000000000 ≤ s.time ∧ s.time ≤ 8640000000000000) ∧
    (∀ (oracleValid : String → Bool) (validCache : List String) (off : Int → Int)
        (hostOff now : Int) (input : String) (locale zoneName : String) (debug : Bool)
        (s : KronoState) (c : List String),
      Krono.create oracleValid validCache off hostOff now input locale zoneName debug =
        Except.ok (s, c) →
      -8640000000000000 ≤ s.time ∧ s.time ≤ 8640000000000000) := by
  refine ⟨mkKrono_ok_bounds, ?_, ?_, ?_, ?_, ?_⟩
  · intro oracleValid validCache off hostOff k amount u s c h
    exact mkKrono_ok_bounds oracleValid validCache _ k.locale k.zoneName k.debug s c h
  · intro oracleValid validCache off hostOff k amount u s c h
    exact mkKrono_ok_bounds oracleValid validCache _ k.locale k.zoneName k.debug s c h
  · intro oracleValid validCache off hostOff k u s c h
    exact mkKrono_ok_bounds oracleValid validCache _ k.locale k.zoneName k.debug s c h
  · intro oracleValid validCache k z s c h
    exact mkKrono_ok_bounds oracleValid validCache k.time k.locale z k.debug s c h
  · intro oracleValid validCache off hostOff now input locale zoneName debug s c h
    unfold Krono.create at h
    cases hp : parseToTime zoneName off hostOff now input with
    | error e =>
        rw [hp] at h
        exact absurd h (by simp)
    | ok t =>
        rw [hp] at h
        exact mkKrono_ok_bounds oracleValid validCache t locale zoneName debug s c h

/-- Witness for C10 at a concrete input: a successful construction at
timestamp 5. -/
theorem claimC10_witness :
    -8640000000000000 ≤ ((⟨5, "en-GB", "UTC", false⟩ : KronoState)).time ∧
      ((⟨5, "en-GB", "UTC", false⟩ : KronoState)).time ≤ 8640000000000000 :=
  claimC10.1 (fun _ => true) [] 5 "en-GB" "UTC" false ⟨5, "en-GB", "UTC", false⟩ []
    (by decide)
